import Mathlib

/-!
# Verification of the test-package generator engine

Shallow embedding of `src/generator.py` (the package assembly engine) and of
the manual-configuration assembly in `src/app.py`.  Rows of a CSV table are
association lists from column name to cell value, mirroring Python's
`csv.DictReader` / plain `dict` semantics (first-match lookup, in-place update
of an existing key, append of a new key).  File-system effects (directory
creation, asset copies, CSV writes, log prints) are recorded as an event
trace.  Randomness (`uuid.uuid4().hex`) is modelled as a stream of strings
indexed by draw position; the current date string is an environment parameter.
Python exceptions that the source does not catch (`KeyError` from the source
path table, `ValueError` from `int(...)`) surface as `Except.error`.
-/

set_option autoImplicit false

namespace TPG

/-- A CSV row / Python dict: ordered association list column ↦ value. -/
abbrev Row := List (String × String)

/-- Python `d[k]` / `d.get(k)`: first binding of `k`. -/
def lookupA {α : Type} (l : List (String × α)) (k : String) : Option α :=
  (l.find? (fun p => p.1 == k)).map (fun p => p.2)

/-- Python `d[k] = v`: replace the (first) binding in place if the key is
present, else append.  Dict keys are unique, so "first" is exact. -/
def setA {α : Type} : List (String × α) → String → α → List (String × α)
  | [], k, v => [(k, v)]
  | p :: t, k, v => if p.1 == k then (k, v) :: t else p :: setA t k v

/-- `row[k]` read. -/
def rget (r : Row) (k : String) : Option String := lookupA r k

/-- `row[k] = v`. -/
def rset (r : Row) (k : String) (v : String) : Row := setA r k v

/-- `k in row`. -/
def rhas (r : Row) (k : String) : Bool := r.any (fun p => p.1 == k)

/-- `list(row.keys())`. -/
def rkeys (r : Row) : List String := r.map (fun p => p.1)

/-- Python `s.hex[-n:]` on a drawn uuid string. -/
def takeRightStr (s : String) (n : Nat) : String := ⟨(s.data.reverse.take n).reverse⟩

/-- Python `s[:n]`. -/
def takeLeftStr (s : String) (n : Nat) : String := ⟨s.data.take n⟩

/-- `p` is a prefix of `s` (used to model "path lies under folder" and glob prefixes). -/
def strStarts (p s : String) : Bool := p.data.isPrefixOf s.data

/-- `s` ends with `p` (used to model the `*.csv` glob suffix). -/
def strEnds (p s : String) : Bool := p.data.isSuffixOf s.data

/-- The whitespace set of Python `str.strip()`. -/
def isPySpace (c : Char) : Bool :=
  c == ' ' || c == '\t' || c == '\n' || c == '\r' || c == '\x0b' || c == '\x0c'

/-- Python `s.strip()`. -/
def pyStrip (s : String) : String :=
  ⟨((s.data.dropWhile isPySpace).reverse.dropWhile isPySpace).reverse⟩

/-- Python `s.lower()` (character-wise, as for the ASCII labels involved). -/
def pyLower (s : String) : String := ⟨s.data.map Char.toLower⟩

/-- Python `s.replace(a, b)` for a one-character pattern. -/
def pyReplaceChar (s : String) (a b : Char) : String :=
  ⟨s.data.map (fun c => if c == a then b else c)⟩

/-- Value of a digit run; `none` if a non-digit appears (helper for `pyInt`). -/
def digitsVal : List Char → Nat → Option Nat
  | [], acc => some acc
  | c :: rest, acc =>
      if c.isDigit then digitsVal rest (acc * 10 + (c.toNat - '0'.toNat)) else none

/-- Python `int(s)` on a decimal string: optional sign, at least one digit,
surrounding whitespace ignored; `none` models the `ValueError` case. -/
def pyInt (s : String) : Option Int :=
  match (pyStrip s).data with
  | [] => none
  | '+' :: rest => if rest.isEmpty then none else (digitsVal rest 0).map Int.ofNat
  | '-' :: rest => if rest.isEmpty then none else (digitsVal rest 0).map (fun n => -(Int.ofNat n))
  | cs => (digitsVal cs 0).map Int.ofNat

/-- Uncaught Python exceptions of the engine. -/
inductive PyError : Type where
  | keyError (k : String)
  | valueError (s : String)
deriving DecidableEq

/-- The uuid draw stream: `stream i` is the hex of the `i`-th `uuid.uuid4()` call. -/
structure GenSt : Type where
  stream : Nat → String
  pos : Nat

/-- One `uuid.uuid4()` call. -/
def GenSt.draw (g : GenSt) : String × GenSt := (g.stream g.pos, ⟨g.stream, g.pos + 1⟩)

/-- `random_id(n)`: `uuid.uuid4().hex[-n:]`. -/
def randomId (n : Nat) (g : GenSt) : String × GenSt :=
  let (u, g1) := g.draw
  (takeRightStr u n, g1)

/-- Result of `generate_common_names`. -/
structure Names : Type where
  title : String
  short_desc : String
  long_desc : String
  video : String
  landscape : String
  portrait : String
  package_id : String
deriving DecidableEq

/-- `generate_common_names(prefix)`; `dateStr` is `datetime.today().strftime('%d-%m-%y')`. -/
def generateCommonNames (dateStr pfx : String) (g : GenSt) : Names × GenSt :=
  let (uid4, g1) := randomId 4 g
  let (uid6, g2) := randomId 6 g1
  let (pid, g3) := g2.draw
  ({ title := "Test-Mops-" ++ pfx ++ "-" ++ dateStr ++ "-" ++ uid4
   , short_desc := "Description of Test-Mops-" ++ pfx ++ "-" ++ dateStr ++ "-" ++ uid4
   , long_desc := "Short Description of Test-Mops-" ++ pfx ++ "-" ++ dateStr ++ "-" ++ uid4
   , video := "mops-test-" ++ pyLower pfx ++ "-" ++ uid6 ++ ".mp4"
   , landscape := "mops-test-" ++ pyLower pfx ++ "-16x9-" ++ uid6 ++ ".jpg"
   , portrait := "mops-test-" ++ pyLower pfx ++ "-2x3-" ++ uid6 ++ ".jpg"
   , package_id := pid }, g3)

/-- The per-(provider, product) shared series/season identity (`series_meta[key]`). -/
structure SeriesMeta : Type where
  base : Names
  season_title : String
  season_desc : String
  series_poster : String
  series_landscape : String
  season_landscape : String
deriving DecidableEq

/-- Creation of a fresh series identity (lines 175-182 of `generator.py`),
with the same draw order as the source. -/
def mkSeriesMeta (dateStr : String) (g : GenSt) : SeriesMeta × GenSt :=
  let (base, g1) := generateCommonNames dateStr "Series" g
  let (sid4, g2) := randomId 4 g1
  let seasonTitle := "Test-Mops-Season-" ++ dateStr ++ "-" ++ sid4
  let (suid4, g3) := randomId 4 g2
  ({ base := base
   , season_title := seasonTitle
   , season_desc := "Description of " ++ seasonTitle
   , series_poster := "test-mops-series-2x3-" ++ suid4 ++ ".jpg"
   , series_landscape := "test-mops-series-16x9-" ++ suid4 ++ ".jpg"
   , season_landscape := "test-mops-season-16x9-" ++ suid4 ++ ".jpg" }, g3)

-- === Config constants of generator.py ===

def sourceCsvPaths : List (String × String) :=
  [("others", "source_data/others-test-package.csv"),
   ("warnerbros", "source_data/warnerbros-test-package.csv")]

def sourceMediaDir : String := "source_data/media"

def outputDir : String := "GENERATED_PACKAGES"

def landscapeImage : String := "encode-aes2805-2-16x9.jpg"

def portraitImage : String := "encode-aes2805-1-2x3.jpg"

def videoFile : String := "encode-aes2805-2.mp4"

def providerProducts : List (String × List String) :=
  [("others", ["localnow", "twc", "hbcugo"]), ("warnerbros", ["localnow"])]

/-- File-system / console effects of a run, in emission order. -/
inductive FSEvent : Type where
  | mkdir (path : String)
  | copyFile (src dst : String)
  | writeCsv (path : String) (headers : List String) (rows : List Row)
  | log (msg : String)
deriving DecidableEq

/-- `copy_assets(destination_folder, names)`. -/
def copyAssets (folder : String) (names : Names) : List FSEvent :=
  [ .copyFile (sourceMediaDir ++ "/" ++ videoFile) (folder ++ "/" ++ names.video)
  , .copyFile (sourceMediaDir ++ "/" ++ landscapeImage) (folder ++ "/" ++ names.landscape)
  , .copyFile (sourceMediaDir ++ "/" ++ portraitImage) (folder ++ "/" ++ names.portrait) ]

/-- Manual configuration structure: provider ↦ product ↦ field ↦ string count
(Python nested dicts; keys unique when built from real dicts). -/
abbrev MC := List (String × List (String × List (String × String)))

/-- `manual_configs.get(provider, {}).get(product, {})`. -/
def pdOf (mc : MC) (provider product : String) : List (String × String) :=
  (lookupA ((lookupA mc provider).getD []) product).getD []

/-- `int(product_data.get(field, 0))`: missing field defaults to integer 0,
a present field is parsed with Python `int` and raises `ValueError` on garbage. -/
def manualCount (pd : List (String × String)) (field : String) : Except PyError Int :=
  match lookupA pd field with
  | none => .ok 0
  | some s =>
      match pyInt s with
      | some n => .ok n
      | none => .error (.valueError s)

/-- Count-table key `f"{vtype_raw}_{provider}_{product}"`. -/
def countKey (vtypeRaw provider product : String) : String :=
  vtypeRaw ++ "_" ++ provider ++ "_" ++ product

/-- Manual-mode count entries for one product (generator.py lines 113-125). -/
def addProductCounts (mc : MC) (provider product : String) (cfg : List (String × Int)) :
    Except PyError (List (String × Int)) := do
  let pd := pdOf mc provider product
  let m ← manualCount pd "full_movie"
  let cfg := setA cfg (countKey "full_movie" provider product) m
  let e ← manualCount pd "full_episode"
  let cfg := setA cfg (countKey "full_episode" provider product) e
  if provider == "others" && product == "twc" then
    let s ← manualCount pd "short_video"
    pure (setA cfg (countKey "short_video" provider product) s)
  else
    pure cfg

/-- Fold of `addProductCounts` over one provider's products. -/
def addProviderCounts (mc : MC) (provider : String) :
    List (String × List (String × String)) → List (String × Int) →
    Except PyError (List (String × Int))
  | [], cfg => .ok cfg
  | (product, _) :: rest, cfg => do
      let cfg ← addProductCounts mc provider product cfg
      addProviderCounts mc provider rest cfg

/-- The manual-mode count table built by `run_generation` (lines 111-125). -/
def buildConfigManualAux : MC → MC → List (String × Int) → Except PyError (List (String × Int))
  | _, [], cfg => .ok cfg
  | mc, (provider, prods) :: rest, cfg => do
      let cfg ← addProviderCounts mc provider prods cfg
      buildConfigManualAux mc rest cfg

def buildConfigManual (mc : MC) : Except PyError (List (String × Int)) :=
  buildConfigManualAux mc mc []

/-- The default-mode count table (lines 93-101). -/
def buildConfigDefault : List (String × Int) :=
  providerProducts.foldl
    (fun cfg pp =>
      pp.2.foldl
        (fun cfg product =>
          let cfg := setA cfg (countKey "full_movie" pp.1 product) 1
          let cfg := setA cfg (countKey "full_episode" pp.1 product) 1
          if pp.1 == "others" && product == "twc" then
            setA cfg (countKey "short_video" pp.1 product) 1
          else cfg)
        cfg)
    []

-- === Generation loop (generator.py lines 129-252) ===

/-- External world of a run: the current date string, the parsed content of
source CSV files by path (`none` entry models `FileNotFoundError`), and the
file paths already present in the output tree from prior runs. -/
structure Env : Type where
  dateStr : String
  srcFiles : List (String × List Row)
  preFiles : List String

/-- `load_csv_rows(provider)`: the `SOURCE_CSV_PATHS[provider]` dict lookup
raises `KeyError` for an unknown provider; a missing file is reported as
`none` (the `FileNotFoundError` the caller catches). -/
def loadCsvRows (env : Env) (provider : String) : Except PyError (Option (List Row)) :=
  match lookupA sourceCsvPaths provider with
  | none => .error (.keyError provider)
  | some path => .ok (lookupA env.srcFiles path)

/-- First source row whose `Video Type` matches the requested type
case-insensitively after trimming (lines 164-167); reading a row that lacks
the `Video Type` column raises `KeyError`. -/
def findTemplate (rows : List Row) (vtype : String) : Except PyError (Option Row) :=
  match rows with
  | [] => .ok none
  | r :: rest =>
      match rget r "Video Type" with
      | none => .error (.keyError "Video Type")
      | some v =>
          if pyLower (pyStrip v) == pyLower vtype then .ok (some r)
          else findTemplate rest vtype

/-- The naming prefix chosen on line 195. -/
def instPfx (vtype : String) : String :=
  if vtype == "Full Episode" then "Episode"
  else if vtype == "Full Movie" then "Movie" else "Short"

/-- Common field overwrites of one generated record (lines 194-208). -/
def buildCommonRow (template : Row) (names : Names) (vtype product : String) : Row :=
  let row := rset template "Movie / Episode Title" names.title
  let row := rset row "Movie / Episode Short Description" names.short_desc
  let row := rset row "Movie / Episode Description" names.long_desc
  let row := rset row "Programming Type" vtype
  let row := rset row "Movie/Episode Video File Name (including extension)" names.video
  let row := rset row "Movie / Episode Landscape Image Name (including extension)" names.landscape
  let row := rset row "Movie Poster Image Name (including extension)" names.portrait
  let row := if rhas row "package_id" then rset row "package_id" names.package_id else row
  if rhas row "products" then rset row "products" product else row

/-- Episode-specific field overwrites (lines 212-221); `i` is the 0-based loop index. -/
def addEpisodeFields (row : Row) (meta : SeriesMeta) (i : Nat) : Row :=
  let row := rset row "Series Title" meta.base.title
  let row := rset row "Series Description" meta.base.short_desc
  let row := rset row "Season Number" "1"
  let row := rset row "Season Title" meta.season_title
  let row := rset row "Season Description" meta.season_desc
  let row := rset row "Episode Number" (toString (i + 1))
  let row := rset row "Series Poster Image Name (including extension)" meta.series_poster
  let row := rset row "Series Landscape Image Name (including extension)" meta.series_landscape
  rset row "Season Landscape Image Name (including extension)" meta.season_landscape

/-- Mutable state of one provider's processing: the `series_meta` dict, the
creation order of series identities (bookkeeping of the loop), the
`output_rows` list tagged with the (product, vtype) loop variables that
produced each row, the event trace, and the draw stream. -/
structure PState : Type where
  smeta : List (String × SeriesMeta)
  createdK : List (String × SeriesMeta)
  out : List (String × String × Row)
  evs : List FSEvent
  gen : GenSt

def initPState (g : GenSt) : PState :=
  { smeta := [], createdK := [], out := [], evs := [], gen := g }

/-- One iteration of the `for i in range(count)` instance loop (lines 193-223). -/
def instStep (dateStr folder product vtype : String) (template : Row)
    (meta? : Option SeriesMeta) (i : Nat) (st : PState) : PState :=
  let names := (generateCommonNames dateStr (instPfx vtype) st.gen).1
  let g1 := (generateCommonNames dateStr (instPfx vtype) st.gen).2
  let row := buildCommonRow template names vtype product
  let evs1 := st.evs ++ copyAssets folder names
  let row :=
    match meta? with
    | some m => addEpisodeFields row m i
    | none => row
  { st with gen := g1, evs := evs1, out := st.out ++ [(product, vtype, row)] }

/-- The `for i in range(count)` instance loop (lines 193-223). -/
def genInstances (dateStr folder product vtype : String) (template : Row)
    (meta? : Option SeriesMeta) : List Nat → PState → PState
  | [], st => st
  | i :: rest, st =>
      genInstances dateStr folder product vtype template meta? rest
        (instStep dateStr folder product vtype template meta? i st)

/-- The three series/season asset copies performed when an identity is created
(lines 185-187). -/
def seriesTriple (folder : String) (m : SeriesMeta) : List FSEvent :=
  [ .copyFile (sourceMediaDir ++ "/" ++ portraitImage) (folder ++ "/" ++ m.series_poster)
  , .copyFile (sourceMediaDir ++ "/" ++ landscapeImage) (folder ++ "/" ++ m.series_landscape)
  , .copyFile (sourceMediaDir ++ "/" ++ landscapeImage) (folder ++ "/" ++ m.season_landscape) ]

/-- The series-identity preparation of lines 172-191: for an episode entry,
look up or create the shared `series_meta[f"{provider}_{product}"]` (creation
draws the names and copies the three series/season assets once); for any
other content type, `meta = None`. -/
def episodePrep (env : Env) (provider folder product vtype : String) (st : PState) :
    Option SeriesMeta × PState :=
  if vtype == "Full Episode" then
    let skey := provider ++ "_" ++ product
    match lookupA st.smeta skey with
    | some m => (some m, st)
    | none =>
        let m := (mkSeriesMeta env.dateStr st.gen).1
        let g1 := (mkSeriesMeta env.dateStr st.gen).2
        (some m,
          { st with
            smeta := setA st.smeta skey m
            createdK := st.createdK ++ [(skey, m)]
            evs := st.evs ++ seriesTriple folder m
            gen := g1 })
  else (none, st)

/-- One (product, vtype) entry of the generation loop (lines 153-223). -/
def processEntry (env : Env) (cfg : List (String × Int)) (provider folder : String)
    (srcRows : List Row) (product vtype : String) (st : PState) : Except PyError PState :=
  if vtype == "Short Video" && !(provider == "others" && product == "twc") then .ok st
  else
    let ckey := countKey (pyReplaceChar (pyLower vtype) ' ' '_') provider product
    let count := (lookupA cfg ckey).getD 0
    if count == 0 then .ok st
    else do
      let tmpl? ← findTemplate srcRows vtype
      match tmpl? with
      | none =>
          .ok { st with evs := st.evs ++ [.log ("No template row for " ++ vtype ++ " in " ++ provider)] }
      | some template =>
          .ok (genInstances env.dateStr folder product vtype template
                (episodePrep env provider folder product vtype st).1
                (List.range count.toNat)
                (episodePrep env provider folder product vtype st).2)

/-- The (product, vtype) iteration order of lines 152-153. -/
def entriesFor (products : List String) : List (String × String) :=
  products.foldr
    (fun pr acc => (pr, "Full Movie") :: (pr, "Full Episode") :: (pr, "Short Video") :: acc) []

def processEntries (env : Env) (cfg : List (String × Int)) (provider folder : String)
    (srcRows : List Row) : List (String × String) → PState → Except PyError PState
  | [], st => .ok st
  | (product, vtype) :: rest, st => do
      let st ← processEntry env cfg provider folder srcRows product vtype st
      processEntries env cfg provider folder srcRows rest st

/-- `save_csv(provider, rows, headers)` (lines 55-66): re-creates the folder,
draws the random filename suffix, and writes the rows trimmed to the header
field set.  Returns the emitted events, the CSV path and the new draw state. -/
def saveCsv (provider : String) (rows : List Row) (headers : List String) (g : GenSt) :
    List FSEvent × String × GenSt :=
  let folder := outputDir ++ "/" ++ provider
  let u := (GenSt.draw g).1
  let g1 := (GenSt.draw g).2
  let uid4 := takeRightStr u 4
  let path := folder ++ "/" ++ ("generated-" ++ provider ++ "-test-package-" ++ uid4 ++ ".csv")
  ([.mkdir folder,
    .writeCsv path headers (rows.map (fun r => r.filter (fun p => headers.contains p.1)))],
   path, g1)

/-- One iteration of the provider loop (lines 132-228).  Returns the folder
appended to `all_generated_folders` (when the source table loaded) and the
provider-local state. -/
def processProvider (env : Env) (cfg : List (String × Int)) (provider : String)
    (products : List String) (g : GenSt) : Except PyError (Option String × PState) := do
  let rows? ← loadCsvRows env provider
  match rows? with
  | none =>
      .ok (none, { initPState g with
        evs := [.log ("Error: Source CSV not found for " ++ provider ++ ". Skipping.")] })
  | some [] =>
      .ok (none, { initPState g with
        evs := [.log ("Error: Source CSV is empty for " ++ provider ++ ". Skipping.")] })
  | some (r0 :: rest) =>
      let srcRows := r0 :: rest
      let headers := rkeys r0
      let folder := outputDir ++ "/" ++ provider
      let st0 : PState := { initPState g with evs := [FSEvent.mkdir folder] }
      let st ← processEntries env cfg provider folder srcRows (entriesFor products) st0
      if st.out.isEmpty then
        .ok (some folder, st)
      else
        let (evs2, _, g1) := saveCsv provider (st.out.map (fun t => t.2.2)) headers st.gen
        .ok (some folder,
          { st with
            evs := st.evs ++ evs2 ++
              [.log ("Generated " ++ toString st.out.length ++ " entries for " ++ provider)]
            gen := g1 })

/-- Run-level accumulation across providers: events, generated records tagged
with (provider, product, vtype), created series identities tagged with
(provider, series key), and `all_generated_folders`. -/
structure RunAcc : Type where
  evs : List FSEvent
  tagged : List (String × String × String × Row)
  created : List (String × String × SeriesMeta)
  folders : List String
deriving DecidableEq

def emptyAcc : RunAcc := { evs := [], tagged := [], created := [], folders := [] }

def runProviders (env : Env) (cfg : List (String × Int)) :
    List (String × List String) → GenSt → RunAcc → Except PyError (RunAcc × GenSt)
  | [], g, acc => .ok (acc, g)
  | (provider, products) :: rest, g, acc => do
      let (folder?, st) ← processProvider env cfg provider products g
      let acc1 : RunAcc :=
        { evs := acc.evs ++ st.evs
        , tagged := acc.tagged ++ st.out.map (fun t => (provider, t))
        , created := acc.created ++ st.createdK.map (fun c => (provider, c))
        , folders := acc.folders ++ (match folder? with | some f => [f] | none => []) }
      runProviders env cfg rest st.gen acc1

/-- File paths created by the events of this run (asset copies and CSV writes;
directories are not files). -/
def createdFiles (evs : List FSEvent) : List String :=
  evs.foldr
    (fun e acc =>
      match e with
      | .copyFile _ dst => dst :: acc
      | .writeCsv p _ _ => p :: acc
      | _ => acc) []

/-- `os.listdir(f)` non-emptiness for a run folder: some file — pre-existing
or created in this run — lies under the folder. -/
def listdirNonempty (env : Env) (created : List String) (folder : String) : Bool :=
  (env.preFiles ++ created).any (fun p => strStarts (folder ++ "/") p)

/-- Result of one `run_generation` call. -/
structure RunOut : Type where
  evs : List FSEvent
  tagged : List (String × String × String × Row)
  created : List (String × String × SeriesMeta)
  folders : List String
  result : Option String × String
deriving DecidableEq

/-- The archive step (lines 230-252): keep the folders that exist and are
non-empty on disk; with none, return the empty-result failure, else draw the
zip name and succeed. -/
def archiveStep (env : Env) (acc : RunAcc) (g : GenSt) : RunOut :=
  let active := acc.folders.filter (fun f => listdirNonempty env (createdFiles acc.evs) f)
  if active.isEmpty then
    { evs := acc.evs, tagged := acc.tagged, created := acc.created, folders := acc.folders
    , result := (none, "No files were generated based on the configuration. Check counts.") }
  else
    { evs := acc.evs, tagged := acc.tagged, created := acc.created, folders := acc.folders
    , result := (some ("mops-test-package-export-" ++ takeLeftStr (GenSt.draw g).1 6 ++ ".zip"),
                 "Generation and Zipping complete.") }

/-- The provider/product iteration of the run: the hardcoded catalog in
default mode, the keys of `manual_configs` in manual mode. -/
def provsFor (mode : String) (mc? : Option MC) : List (String × List String) :=
  if mode == "default" then providerProducts
  else
    match mc? with
    | some mc => mc.map (fun pp => (pp.1, pp.2.map (fun q => q.1)))
    | none => []

def mkRunOut (acc : RunAcc) (res : Option String × String) : RunOut :=
  { evs := acc.evs, tagged := acc.tagged, created := acc.created, folders := acc.folders
  , result := res }

/-- `run_generation(mode, manual_configs)` (lines 70-252). -/
def runGeneration (mode : String) (mc? : Option MC) (env : Env) (g : GenSt) :
    Except PyError RunOut :=
  if mode == "default" then do
    let (acc, g1) ← runProviders env buildConfigDefault (provsFor mode mc?) g emptyAcc
    .ok (archiveStep env acc g1)
  else if mode == "manual" then
    match mc? with
    | some (pp :: mcRest) => do
        let mc := pp :: mcRest
        let cfg ← buildConfigManual mc
        let (acc, g1) ← runProviders env cfg (provsFor mode mc?) g emptyAcc
        .ok (archiveStep env acc g1)
    | _ => .ok (mkRunOut emptyAcc (none, "Manual configuration data is missing."))
  else .ok (mkRunOut emptyAcc (none, "Invalid generation mode specified."))

-- === Summary recomputation (generator.py lines 255-325) ===

/-- Snapshot of the output tree as seen by `get_summary_data`: for each CSV
file, its path, its modification time and its parsed rows.  The
`os.path.exists` guards of the source are subsumed: a provider with no
matching file contributes nothing. -/
abbrev OutFS := List (String × Nat × List Row)

/-- Association-list lookup keyed by (provider, vtype) pairs. -/
def lookupP {α : Type} (l : List ((String × String) × α)) (k : String × String) : Option α :=
  (l.find? (fun p => p.1 == k)).map (fun p => p.2)

def setP {α : Type} : List ((String × String) × α) → (String × String) → α →
    List ((String × String) × α)
  | [], k, v => [(k, v)]
  | p :: t, k, v => if p.1 == k then (k, v) :: t else p :: setP t k v

/-- `glob.glob(os.path.join(folder, f"generated-{provider}-test-package-*.csv"))`
membership: literal prefix and `.csv` suffix, with the `*` part not crossing a
directory separator. -/
def globMatch (provider path : String) : Bool :=
  let pre := outputDir ++ "/" ++ provider ++ "/generated-" ++ provider ++ "-test-package-"
  strStarts pre path && strEnds ".csv" path &&
    !(((path.data.drop pre.length).take (path.data.length - pre.length - 4)).contains '/')

/-- `max(csv_matches, key=os.path.getmtime)`: first file of maximal mtime
(Python `max` replaces the current best only on a strictly greater key). -/
def maxByMtime : List (String × Nat × List Row) → Option (String × Nat × List Row)
  | [] => none
  | f :: rest => some (rest.foldl (fun best x => if best.2.1 < x.2.1 then x else best) f)

/-- The rows re-read for one provider: those of the most-recently-modified
matching output file, or none. -/
def selectedRows (fs : OutFS) (provider : String) : List Row :=
  match maxByMtime (fs.filter (fun f => globMatch provider f.1)) with
  | some f => f.2.2
  | none => []

/-- `row.get("Video Type", "N/A").strip()`. -/
def stripVt (r : Row) : String := pyStrip ((rget r "Video Type").getD "N/A")

/-- One (provider, content-type) line of the expected-file tally. -/
structure FileCounts : Type where
  mp4 : Nat
  landscape : Nat
  portrait : Nat
  series : Nat
  season : Nat
deriving DecidableEq

def zeroCounts : FileCounts := { mp4 := 0, landscape := 0, portrait := 0, series := 0, season := 0 }

/-- Tally of one re-read record (lines 287-301): one video, one landscape and
one portrait per row, plus one series and one season when the row's content
type is `full episode` (case-insensitively). -/
def bumpRow (provider : String) (r : Row) (t : List ((String × String) × FileCounts)) :
    List ((String × String) × FileCounts) :=
  let vt := stripVt r
  let cur := (lookupP t (provider, vt)).getD zeroCounts
  let inc : Nat := if pyLower vt == "full episode" then 1 else 0
  setP t (provider, vt)
    { mp4 := cur.mp4 + 1, landscape := cur.landscape + 1, portrait := cur.portrait + 1
    , series := cur.series + inc, season := cur.season + inc }

def tallyRows (provider : String) (rows : List Row)
    (t : List ((String × String) × FileCounts)) : List ((String × String) × FileCounts) :=
  rows.foldl (fun t r => bumpRow provider r t) t

/-- The `file_table` built by `get_summary_data` over both known providers. -/
def fileTableOf (fs : OutFS) : List ((String × String) × FileCounts) :=
  tallyRows "warnerbros" (selectedRows fs "warnerbros")
    (tallyRows "others" (selectedRows fs "others") [])

/-- The `summary_table` triples (provider, products field, stripped vtype). -/
def contentRowsOf (fs : OutFS) : List (String × String × String) :=
  (selectedRows fs "others").map
      (fun r => ("others", (rget r "products").getD "N/A", stripVt r)) ++
  (selectedRows fs "warnerbros").map
      (fun r => ("warnerbros", (rget r "products").getD "N/A", stripVt r))

/-- `collections.Counter` in first-occurrence order. -/
def countOcc : List (String × String × String) → List ((String × String × String) × Nat)
  | [] => []
  | x :: rest =>
      let t := countOcc rest
      ((x, 1 + rest.countP (fun y => y == x)) :: t.filter (fun p => !(p.1 == x)))

/-- `get_summary_data()`: the grouped content counts and the file tally. -/
def getSummaryData (fs : OutFS) :
    List ((String × String × String) × Nat) × List ((String × String) × FileCounts) :=
  (countOcc (contentRowsOf fs), fileTableOf fs)

-- === Manual-config assembly at the web boundary (app.py lines 54-91) ===

/-- `request.form.get(f'{provider}_{product}_{field}', '0')`. -/
def formGet (form : List (String × String)) (provider product field : String) : String :=
  (lookupA form (provider ++ "_" ++ product ++ "_" ++ field)).getD "0"

/-- Python `int(x)` where a non-integer raises (uncaught in `app.generate`). -/
def appInt (s : String) : Except PyError Int :=
  match pyInt s with
  | some n => .ok n
  | none => .error (.valueError s)

/-- `int(movie) > 0 or int(episode) > 0 or int(short) > 0` with Python's
short-circuit evaluation order. -/
def appProductHas (form : List (String × String)) (provider product : String) :
    Except PyError Bool := do
  let m ← appInt (formGet form provider product "full_movie")
  if m > 0 then pure true
  else do
    let e ← appInt (formGet form provider product "full_episode")
    if e > 0 then pure true
    else do
      let s ← appInt (formGet form provider product "short_video")
      pure (s > 0)

/-- The `product_config` dict built for one product (app.py lines 73-78). -/
def appProductConfig (form : List (String × String)) (provider product : String) :
    List (String × String) :=
  [("full_movie", formGet form provider product "full_movie"),
   ("full_episode", formGet form provider product "full_episode")] ++
  (if provider == "others" && product == "twc" then
     [("short_video", formGet form provider product "short_video")]
   else [])

/-- Whether any product of the provider carries a positive count
(`provider_has_config`). -/
def appProviderHas (form : List (String × String)) (provider : String) :
    List String → Except PyError Bool
  | [] => .ok false
  | product :: rest => do
      let h ← appProductHas form provider product
      let hrest ← appProviderHas form provider rest
      pure (h || hrest)

/-- The `manual_configs` dict handed to `run_generation` by `app.generate`:
providers whose counts are all zero are deleted; an empty result means the
user is sent back to the form (`none`: the engine is not called). -/
def appBuildAux (form : List (String × String)) :
    List (String × List String) → MC → Except PyError MC
  | [], mc => .ok mc
  | pp :: rest, mc => do
      let has ← appProviderHas form pp.1 pp.2
      let mc :=
        if has then
          mc ++ [(pp.1, pp.2.map (fun product => (product, appProductConfig form pp.1 product)))]
        else mc
      appBuildAux form rest mc

def appBuildManualConfigs (form : List (String × String)) : Except PyError (Option MC) := do
  let mc ← appBuildAux form providerProducts []
  if mc.isEmpty then pure none else pure (some mc)

-- === Derived definitions used by the specifications ===

/-- An event is a copy into `folder` whose destination carries the
series/season asset naming scheme (`test-mops-se...`), as opposed to the
per-instance scheme (`mops-test-...`). -/
def seriesCopyPred (folder : String) (e : FSEvent) : Bool :=
  match e with
  | .copyFile _ dst => strStarts ((folder ++ "/") ++ "test-mops-se") dst
  | _ => false

/-- The eight series/season fields of an episode record that must be shared
across all episodes of one (provider, product) pair. -/
def seriesFieldsOf (r : Row) :
    Option String × Option String × Option String × Option String × Option String ×
    Option String × Option String × Option String :=
  (rget r "Series Title", rget r "Series Description", rget r "Season Number",
   rget r "Season Title", rget r "Season Description",
   rget r "Series Poster Image Name (including extension)",
   rget r "Series Landscape Image Name (including extension)",
   rget r "Season Landscape Image Name (including extension)")

/-- The field values a `SeriesMeta` dictates for its episode records. -/
def metaTuple (m : SeriesMeta) :
    Option String × Option String × Option String × Option String × Option String ×
    Option String × Option String × Option String :=
  (some m.base.title, some m.base.short_desc, some "1",
   some m.season_title, some m.season_desc,
   some m.series_poster, some m.series_landscape, some m.season_landscape)

/-- The draw stream used by all concrete witness runs: distinct, readable
eight-character draws. -/
def gW : GenSt := ⟨fun n => "uid" ++ toString n ++ "x", 0⟩

def rowMovieW : Row :=
  [("Video Type", "Full Movie"), ("Movie / Episode Title", "t"), ("products", "x")]

def rowEpisodeW : Row :=
  [("Video Type", "Full Episode"), ("Movie / Episode Title", "t"), ("products", "x")]

/-- A template row whose `Video Type` matches `Full Movie` only up to case. -/
def rowShoutW : Row :=
  [("Video Type", "FULL MOVIE"), ("Movie / Episode Title", "t"), ("products", "x")]

def envW : Env :=
  { dateStr := "01-01-26"
  , srcFiles := [("source_data/others-test-package.csv", [rowMovieW, rowEpisodeW]),
                 ("source_data/warnerbros-test-package.csv", [rowMovieW])]
  , preFiles := [] }

/-- Manual config requesting one movie and two episodes for others/localnow. -/
def mcW : MC := [("others", [("localnow", [("full_movie", "1"), ("full_episode", "2")])])]

def fallbackRunOut : RunOut := mkRunOut emptyAcc (none, "")

def runW : RunOut :=
  match runGeneration "manual" (some mcW) envW gW with
  | .ok o => o
  | .error _ => fallbackRunOut

/-- All-zero manual config naming only warnerbros. -/
def mcZ : MC := [("warnerbros", [("localnow", [("full_movie", "0"), ("full_episode", "0")])])]

/-- Output tree polluted with a file from a prior run under the warnerbros folder. -/
def envPre : Env := { envW with preFiles := ["GENERATED_PACKAGES/warnerbros/stale.csv"] }

def runZPre : RunOut :=
  match runGeneration "manual" (some mcZ) envPre gW with
  | .ok o => o
  | .error _ => fallbackRunOut

/-- Manual config requesting one episode while the others table has no
episode template row. -/
def mcC4 : MC := [("others", [("localnow", [("full_movie", "0"), ("full_episode", "1")])])]

def envC4 : Env :=
  { dateStr := "01-01-26"
  , srcFiles := [("source_data/others-test-package.csv", [rowMovieW]),
                 ("source_data/warnerbros-test-package.csv", [rowMovieW])]
  , preFiles := [] }

def runC4 : RunOut :=
  match runGeneration "manual" (some mcC4) envC4 gW with
  | .ok o => o
  | .error _ => fallbackRunOut

/-- Manual config requesting one movie from a table whose only template's
`Video Type` is `FULL MOVIE` (matches the request only up to case). -/
def mcC5 : MC := [("others", [("localnow", [("full_movie", "1"), ("full_episode", "0")])])]

def envC5 : Env :=
  { dateStr := "01-01-26"
  , srcFiles := [("source_data/others-test-package.csv", [rowShoutW])]
  , preFiles := [] }

def runC5 : RunOut :=
  match runGeneration "manual" (some mcC5) envC5 gW with
  | .ok o => o
  | .error _ => fallbackRunOut

/-- Manual config with a non-numeric count string. -/
def mcBad : MC := [("others", [("localnow", [("full_movie", "abc"), ("full_episode", "0")])])]

/-- Manual config with a negative count string. -/
def mcNeg : MC := [("others", [("localnow", [("full_movie", "-2"), ("full_episode", "0")])])]

/-- Manual config naming a provider outside the source-path table. -/
def mcU : MC := [("netflix", [("localnow", [("full_movie", "1"), ("full_episode", "0")])])]

/-- Environment in which the others source table is missing. -/
def envMissingW : Env :=
  { dateStr := "01-01-26"
  , srcFiles := [("source_data/warnerbros-test-package.csv", [rowMovieW, rowEpisodeW])]
  , preFiles := [] }

/-- A summary snapshot: two generated files for others (mtimes 5 and 9) and
one for warnerbros. -/
def fsS : OutFS :=
  [("GENERATED_PACKAGES/others/generated-others-test-package-aaaa.csv", 5,
     [rowEpisodeW, rowEpisodeW, rowMovieW]),
   ("GENERATED_PACKAGES/others/generated-others-test-package-bbbb.csv", 9,
     [rowEpisodeW]),
   ("GENERATED_PACKAGES/warnerbros/generated-warnerbros-test-package-cccc.csv", 1,
     [rowMovieW])]

/-- The provider-level output of a concrete default-config run for others,
used to witness the schema-fidelity theorem. -/
def provOutW : Option String × PState :=
  match processProvider envW buildConfigDefault "others" ["localnow"] gW with
  | .ok r => r
  | .error _ => (none, initPState gW)

def runZ : RunOut :=
  match runGeneration "manual" (some mcZ) envW gW with
  | .ok o => o
  | .error _ => fallbackRunOut

/-- A submitted web form with a single positive count. -/
def formW : List (String × String) := [("others_localnow_full_movie", "2")]

/-- The manual_configs dict the web boundary builds from `formW`. -/
def appMCW : MC :=
  match appBuildManualConfigs formW with
  | .ok (some mc) => mc
  | _ => []

/-- The count table of the `mcC4` run. -/
def cfgC4 : List (String × Int) :=
  match buildConfigManual mcC4 with
  | .ok c => c
  | .error _ => []

/-- Every entry of the count table is zero. -/
def allZeroCfg (cfg : List (String × Int)) : Prop :=
  ∀ k v, lookupA cfg k = some v → v = 0

-- === Association-list lemmas ===

theorem lookupA_nil {α : Type} (k : String) : lookupA ([] : List (String × α)) k = none := rfl

theorem lookupA_cons {α : Type} (p : String × α) (l : List (String × α)) (k : String) :
    lookupA (p :: l) k = if p.1 == k then some p.2 else lookupA l k := by
  unfold lookupA
  rcases h : p.1 == k with _ | _ <;> simp [List.find?, h]

theorem lookupA_append_some {α : Type} {l1 l2 : List (String × α)} {k : String} {v : α}
    (h : lookupA l1 k = some v) : lookupA (l1 ++ l2) k = some v := by
  induction l1 with
  | nil => simp [lookupA_nil] at h
  | cons p t ih =>
      rw [lookupA_cons] at h
      rw [List.cons_append, lookupA_cons]
      rcases hp : p.1 == k with _ | _
      · rw [hp] at h
        simp only [Bool.false_eq_true, if_false] at h ⊢
        exact ih h
      · rw [hp] at h
        simpa using h

theorem lookupA_append_none {α : Type} {l1 : List (String × α)} {k : String}
    (h : lookupA l1 k = none) (l2 : List (String × α)) :
    lookupA (l1 ++ l2) k = lookupA l2 k := by
  induction l1 with
  | nil => simp
  | cons p t ih =>
      rw [lookupA_cons] at h
      rw [List.cons_append, lookupA_cons]
      rcases hp : p.1 == k with _ | _
      · rw [hp] at h
        simp only [Bool.false_eq_true, if_false] at h ⊢
        exact ih h
      · rw [hp] at h
        simp at h

theorem lookupA_mem {α : Type} {l : List (String × α)} {k : String} {v : α}
    (h : lookupA l k = some v) : (k, v) ∈ l := by
  induction l with
  | nil => simp [lookupA_nil] at h
  | cons p t ih =>
      rw [lookupA_cons] at h
      rcases hp : p.1 == k with _ | _
      · rw [hp] at h
        simp only [Bool.false_eq_true, if_false] at h
        exact List.mem_cons_of_mem _ (ih h)
      · rw [hp] at h
        simp only [if_true] at h
        have hk : p.1 = k := by simpa using hp
        have : p = (k, v) := by
          cases p with
          | mk a b => simp at hk h; rw [hk, h]
        rw [← this]
        exact List.mem_cons_self _ _

theorem lookupA_eq_none_iff {α : Type} (l : List (String × α)) (k : String) :
    lookupA l k = none ↔ ∀ p ∈ l, p.1 ≠ k := by
  induction l with
  | nil => simp [lookupA_nil]
  | cons p t ih =>
      rw [lookupA_cons, List.forall_mem_cons]
      rcases hp : p.1 == k with _ | _
      · simp only [Bool.false_eq_true, if_false]
        rw [ih]
        have hpk : p.1 ≠ k := by simpa using hp
        simp [hpk]
      · simp only [if_true]
        have hpk : p.1 = k := by simpa using hp
        constructor
        · intro h; simp at h
        · intro h
          exact absurd hpk h.1

theorem setA_of_lookup_none {α : Type} {l : List (String × α)} {k : String}
    (h : lookupA l k = none) (v : α) : setA l k v = l ++ [(k, v)] := by
  induction l with
  | nil => rfl
  | cons p t ih =>
      rw [lookupA_cons] at h
      rcases hp : p.1 == k with _ | _
      · rw [hp] at h
        simp only [Bool.false_eq_true, if_false] at h
        unfold setA
        rw [hp]
        simp [ih h]
      · rw [hp] at h
        simp at h

theorem lookupA_setA {α : Type} (l : List (String × α)) (k' k : String) (v : α) :
    lookupA (setA l k' v) k = if k == k' then some v else lookupA l k := by
  induction l with
  | nil =>
      unfold setA
      rw [lookupA_cons, lookupA_nil]
      rcases hk : k == k' with _ | _
      · have hne : (k' == k) = false := by
          rcases h2 : k' == k with _ | _
          · rfl
          · have h3 : k' = k := by simpa using h2
            rw [h3] at hk; simp at hk
        simp [hne, hk]
      · have hkk : k = k' := by simpa using hk
        subst hkk
        simp
  | cons p t ih =>
      unfold setA
      rcases hp : p.1 == k' with _ | _
      · simp only [Bool.false_eq_true, if_false]
        rw [lookupA_cons, lookupA_cons, ih]
        rcases hpk : p.1 == k with _ | _
        · simp
        · have hp1 : p.1 = k := by simpa using hpk
          rcases hk : k == k' with _ | _
          · simp
          · have : k = k' := by simpa using hk
            rw [this] at hp1
            rw [hp1] at hp
            simp at hp
      · have hp1 : p.1 = k' := by simpa using hp
        simp only [if_true]
        rw [lookupA_cons, lookupA_cons]
        rcases hk : k == k' with _ | _
        · have hkk : (k' == k) = false := by
            rcases h2 : k' == k with _ | _
            · rfl
            · have : k' = k := by simpa using h2
              rw [this] at hk; simp at hk
          simp [hkk, hp1]
        · have : k = k' := by simpa using hk
          simp [this]

theorem rget_rset (r : Row) (k' k : String) (v : String) :
    rget (rset r k' v) k = if k == k' then some v else rget r k :=
  lookupA_setA r k' k v

-- === String prefix lemmas ===

theorem strStarts_iff (p s : String) : strStarts p s = true ↔ p.data <+: s.data := by
  unfold strStarts
  exact List.isPrefixOf_iff_prefix

theorem isPrefixOf_append_same (l l1 l2 : List Char) :
    (l ++ l1).isPrefixOf (l ++ l2) = l1.isPrefixOf l2 := by
  induction l with
  | nil => rfl
  | cons a t ih => simpa [List.isPrefixOf] using ih

theorem strStarts_cancelL (x p s : String) :
    strStarts (x ++ p) (x ++ s) = strStarts p s := by
  unfold strStarts
  rw [String.data_append, String.data_append, isPrefixOf_append_same]

theorem prefix_data_append (s t : String) : s.data <+: (s ++ t).data := by
  rw [String.data_append]
  exact List.prefix_append _ _

/-- If `a` is a prefix of `s` and the pattern `p` is a prefix of `a`, then
`p` is a prefix of `s`. -/
theorem strStarts_of_through (p a s : String) (hpre : a.data <+: s.data)
    (h : p.data <+: a.data) : strStarts p s = true :=
  (strStarts_iff p s).mpr (h.trans hpre)

/-- If `a` is a prefix of `s` and the pattern `p` is incomparable with `a`,
then `p` is not a prefix of `s`. -/
theorem strStarts_sep (p a s : String) (hpre : a.data <+: s.data)
    (h1 : ¬ p.data <+: a.data) (h2 : ¬ a.data <+: p.data) : strStarts p s = false := by
  rcases hb : strStarts p s with _ | _
  · rfl
  · have hp := (strStarts_iff p s).mp hb
    rcases List.prefix_or_prefix_of_prefix hp hpre with h | h
    · exact absurd h h1
    · exact absurd h h2

theorem prefix_through_append (a x y : String) (h : a.data <+: x.data) :
    a.data <+: (x ++ y).data :=
  h.trans (prefix_data_append x y)

-- === Generated-row field lemmas ===

theorem seriesFields_addEpisode (row : Row) (m : SeriesMeta) (i : Nat) :
    seriesFieldsOf (addEpisodeFields row m i) = metaTuple m := by
  simp [addEpisodeFields, seriesFieldsOf, metaTuple, rget_rset]

theorem rget_addEpisode_pt (row : Row) (m : SeriesMeta) (i : Nat) :
    rget (addEpisodeFields row m i) "Programming Type" = rget row "Programming Type" := by
  simp [addEpisodeFields, rget_rset]

theorem rget_addEpisode_vt (row : Row) (m : SeriesMeta) (i : Nat) :
    rget (addEpisodeFields row m i) "Video Type" = rget row "Video Type" := by
  simp [addEpisodeFields, rget_rset]

theorem rget_addEpisode_epnum (row : Row) (m : SeriesMeta) (i : Nat) :
    rget (addEpisodeFields row m i) "Episode Number" = some (toString (i + 1)) := by
  simp [addEpisodeFields, rget_rset]

theorem rget_buildCommon_pt (t : Row) (n : Names) (vt pr : String) :
    rget (buildCommonRow t n vt pr) "Programming Type" = some vt := by
  simp only [buildCommonRow]
  split <;> split <;> simp [rget_rset]

theorem rget_buildCommon_vt (t : Row) (n : Names) (vt pr : String) :
    rget (buildCommonRow t n vt pr) "Video Type" = rget t "Video Type" := by
  simp only [buildCommonRow]
  split <;> split <;> simp [rget_rset]

theorem rget_buildCommon_title (t : Row) (n : Names) (vt pr : String) :
    rget (buildCommonRow t n vt pr) "Movie / Episode Title" = some n.title := by
  simp only [buildCommonRow]
  split <;> split <;> simp [rget_rset]

theorem rget_buildCommon_shortDesc (t : Row) (n : Names) (vt pr : String) :
    rget (buildCommonRow t n vt pr) "Movie / Episode Short Description" = some n.short_desc := by
  simp only [buildCommonRow]
  split <;> split <;> simp [rget_rset]

theorem rget_buildCommon_longDesc (t : Row) (n : Names) (vt pr : String) :
    rget (buildCommonRow t n vt pr) "Movie / Episode Description" = some n.long_desc := by
  simp only [buildCommonRow]
  split <;> split <;> simp [rget_rset]

theorem rget_buildCommon_video (t : Row) (n : Names) (vt pr : String) :
    rget (buildCommonRow t n vt pr) "Movie/Episode Video File Name (including extension)" =
      some n.video := by
  simp only [buildCommonRow]
  split <;> split <;> simp [rget_rset]

theorem rget_buildCommon_landscape (t : Row) (n : Names) (vt pr : String) :
    rget (buildCommonRow t n vt pr)
      "Movie / Episode Landscape Image Name (including extension)" = some n.landscape := by
  simp only [buildCommonRow]
  split <;> split <;> simp [rget_rset]

theorem rget_buildCommon_portrait (t : Row) (n : Names) (vt pr : String) :
    rget (buildCommonRow t n vt pr) "Movie Poster Image Name (including extension)" =
      some n.portrait := by
  simp only [buildCommonRow]
  split <;> split <;> simp [rget_rset]

-- === Naming-scheme shape lemmas ===

theorem names_video_shape (d pfx : String) (g : GenSt) :
    "mops-test-".data <+: ((generateCommonNames d pfx g).1.video).data := by
  simp only [generateCommonNames]
  exact prefix_through_append _ _ _ (prefix_through_append _ _ _
    (prefix_through_append _ _ _ (prefix_through_append _ _ _ (List.prefix_refl _))))

theorem names_landscape_shape (d pfx : String) (g : GenSt) :
    "mops-test-".data <+: ((generateCommonNames d pfx g).1.landscape).data := by
  simp only [generateCommonNames]
  exact prefix_through_append _ _ _ (prefix_through_append _ _ _
    (prefix_through_append _ _ _ (prefix_through_append _ _ _ (List.prefix_refl _))))

theorem names_portrait_shape (d pfx : String) (g : GenSt) :
    "mops-test-".data <+: ((generateCommonNames d pfx g).1.portrait).data := by
  simp only [generateCommonNames]
  exact prefix_through_append _ _ _ (prefix_through_append _ _ _
    (prefix_through_append _ _ _ (prefix_through_append _ _ _ (List.prefix_refl _))))

theorem meta_poster_shape (d : String) (g : GenSt) :
    "test-mops-series-2x3-".data <+: ((mkSeriesMeta d g).1.series_poster).data := by
  simp only [mkSeriesMeta]
  exact prefix_through_append _ _ _ (prefix_through_append _ _ _ (List.prefix_refl _))

theorem meta_landscape_shape (d : String) (g : GenSt) :
    "test-mops-series-16x9-".data <+: ((mkSeriesMeta d g).1.series_landscape).data := by
  simp only [mkSeriesMeta]
  exact prefix_through_append _ _ _ (prefix_through_append _ _ _ (List.prefix_refl _))

theorem meta_season_shape (d : String) (g : GenSt) :
    "test-mops-season-16x9-".data <+: ((mkSeriesMeta d g).1.season_landscape).data := by
  simp only [mkSeriesMeta]
  exact prefix_through_append _ _ _ (prefix_through_append _ _ _ (List.prefix_refl _))

-- === Series-copy discrimination lemmas ===

theorem seriesCopyPred_copy (folder src n : String) :
    seriesCopyPred folder (.copyFile src ((folder ++ "/") ++ n)) =
      strStarts "test-mops-se" n := by
  simp [seriesCopyPred, strStarts_cancelL]

theorem seriesCopyPred_instance (folder src n : String) (h : "mops-test-".data <+: n.data) :
    seriesCopyPred folder (.copyFile src ((folder ++ "/") ++ n)) = false := by
  rw [seriesCopyPred_copy]
  exact strStarts_sep _ "mops-test-" _ h (by decide) (by decide)

theorem seriesCopyPred_seriesName (folder src n a : String) (hpre : a.data <+: n.data)
    (h : "test-mops-se".data <+: a.data) :
    seriesCopyPred folder (.copyFile src ((folder ++ "/") ++ n)) = true := by
  rw [seriesCopyPred_copy]
  exact strStarts_of_through _ a _ hpre h

-- === Template-selection lemmas ===

theorem rget_isSome_of_rhas (r : Row) (k : String) (h : rhas r k = true) :
    ∃ v, rget r k = some v := by
  rcases hg : rget r k with _ | v
  · exfalso
    have hall := (lookupA_eq_none_iff r k).mp hg
    rcases List.any_eq_true.mp (show r.any (fun p => p.1 == k) = true from h) with ⟨p, hp, hpk⟩
    exact (hall p hp) (by simpa using hpk)
  · exact ⟨v, rfl⟩

theorem findTemplate_no_error (rows : List Row) (vt : String)
    (h : ∀ r ∈ rows, rhas r "Video Type" = true) : ∃ o, findTemplate rows vt = .ok o := by
  induction rows with
  | nil => exact ⟨none, rfl⟩
  | cons r t ih =>
      obtain ⟨v, hv⟩ := rget_isSome_of_rhas r _ (h r (List.mem_cons_self _ _))
      obtain ⟨o, ho⟩ := ih (fun q hq => h q (List.mem_cons_of_mem _ hq))
      unfold findTemplate
      rw [hv]
      rcases hm : pyLower (pyStrip v) == pyLower vt with _ | _
      · exact ⟨o, by simp [hm, ho]⟩
      · exact ⟨some r, by simp [hm]⟩

theorem findTemplate_ok_matches (rows : List Row) (vt : String) (r : Row)
    (h : findTemplate rows vt = .ok (some r)) :
    ∃ v, rget r "Video Type" = some v ∧ pyLower (pyStrip v) = pyLower vt := by
  induction rows with
  | nil => simp [findTemplate] at h
  | cons q t ih =>
      unfold findTemplate at h
      rcases hv : rget q "Video Type" with _ | v
      · rw [hv] at h; simp at h
      · rw [hv] at h
        rcases hm : pyLower (pyStrip v) == pyLower vt with _ | _
        · simp [hm] at h
          exact ih h
        · simp [hm] at h
          exact ⟨v, by rw [← h]; exact hv, by simpa using hm⟩

-- === Instance-loop specification ===

theorem copyAssets_common_shape (folder d pfx : String) (g : GenSt) :
    ∀ e ∈ copyAssets folder ((generateCommonNames d pfx g).1),
      ∃ src n, e = FSEvent.copyFile src ((folder ++ "/") ++ n) ∧
        "mops-test-".data <+: n.data := by
  intro e he
  simp only [copyAssets, List.mem_cons, List.mem_singleton] at he
  rcases he with he | he | he | he
  · exact ⟨_, _, he, names_video_shape d pfx g⟩
  · exact ⟨_, _, he, names_landscape_shape d pfx g⟩
  · exact ⟨_, _, he, names_portrait_shape d pfx g⟩
  · simp at he

theorem instStep_spec (d folder pr vt : String) (tmpl : Row) (meta? : Option SeriesMeta)
    (i : Nat) (st : PState) :
    ∃ row g1,
      instStep d folder pr vt tmpl meta? i st =
        { smeta := st.smeta, createdK := st.createdK,
          out := st.out ++ [(pr, vt, row)],
          evs := st.evs ++ copyAssets folder ((generateCommonNames d (instPfx vt) st.gen).1),
          gen := g1 }
      ∧ (∀ m, meta? = some m → seriesFieldsOf row = metaTuple m)
      ∧ rget row "Programming Type" = some vt
      ∧ rget row "Video Type" = rget tmpl "Video Type" := by
  refine ⟨_, _, rfl, ?_, ?_, ?_⟩
  · intro m hm
    subst hm
    simp [seriesFields_addEpisode]
  · rcases meta? with _ | m
    · simp [rget_buildCommon_pt]
    · simp [rget_addEpisode_pt, rget_buildCommon_pt]
  · rcases meta? with _ | m
    · simp [rget_buildCommon_vt]
    · simp [rget_addEpisode_vt, rget_buildCommon_vt]

theorem genInstances_spec (d folder pr vt : String) (tmpl : Row) (meta? : Option SeriesMeta)
    (idxs : List Nat) : ∀ (st : PState),
    ∃ ext rows g2,
      genInstances d folder pr vt tmpl meta? idxs st =
        { smeta := st.smeta, createdK := st.createdK, out := st.out ++ rows,
          evs := st.evs ++ ext, gen := g2 }
      ∧ (∀ e ∈ ext, ∃ src n, e = FSEvent.copyFile src ((folder ++ "/") ++ n) ∧
            "mops-test-".data <+: n.data)
      ∧ (∀ x ∈ rows, x.1 = pr ∧ x.2.1 = vt ∧
            (∀ m, meta? = some m → seriesFieldsOf x.2.2 = metaTuple m) ∧
            rget x.2.2 "Programming Type" = some vt ∧
            rget x.2.2 "Video Type" = rget tmpl "Video Type")
      ∧ (rows = [] ↔ idxs = []) := by
  induction idxs with
  | nil =>
      intro st
      refine ⟨[], [], st.gen, ?_, by simp, by simp, by simp⟩
      cases st
      simp [genInstances]
  | cons i rest ih =>
      intro st
      obtain ⟨row, g1, hstep, hrowm, hrowpt, hrowvt⟩ := instStep_spec d folder pr vt tmpl meta? i st
      obtain ⟨ext2, rows2, g2, heq, hext, hrows, hemp⟩ := ih (instStep d folder pr vt tmpl meta? i st)
      refine ⟨copyAssets folder ((generateCommonNames d (instPfx vt) st.gen).1) ++ ext2,
        (pr, vt, row) :: rows2, g2, ?_, ?_, ?_, by simp⟩
      · show genInstances d folder pr vt tmpl meta? rest (instStep d folder pr vt tmpl meta? i st) = _
        rw [heq, hstep]
        simp [List.append_assoc]
      · intro e he
        rcases List.mem_append.mp he with hc | hc
        · exact copyAssets_common_shape folder d (instPfx vt) st.gen e hc
        · exact hext e hc
      · intro x hx
        rcases List.mem_cons.mp hx with hx | hx
        · subst hx
          exact ⟨rfl, rfl, hrowm, hrowpt, hrowvt⟩
        · exact hrows x hx

-- === Entry-level specification ===


theorem filter_seriesTriple (folder d : String) (g : GenSt) :
    (seriesTriple folder ((mkSeriesMeta d g).1)).filter (seriesCopyPred folder) =
      seriesTriple folder ((mkSeriesMeta d g).1) := by
  have h1 := seriesCopyPred_seriesName folder (sourceMediaDir ++ "/" ++ portraitImage)
    ((mkSeriesMeta d g).1.series_poster) "test-mops-series-2x3-" (meta_poster_shape d g) (by decide)
  have h2 := seriesCopyPred_seriesName folder (sourceMediaDir ++ "/" ++ landscapeImage)
    ((mkSeriesMeta d g).1.series_landscape) "test-mops-series-16x9-" (meta_landscape_shape d g)
    (by decide)
  have h3 := seriesCopyPred_seriesName folder (sourceMediaDir ++ "/" ++ landscapeImage)
    ((mkSeriesMeta d g).1.season_landscape) "test-mops-season-16x9-" (meta_season_shape d g)
    (by decide)
  simp [seriesTriple, List.filter, h1, h2, h3]

theorem filter_instExt (folder : String) (ext : List FSEvent)
    (hext : ∀ e ∈ ext, ∃ src n, e = FSEvent.copyFile src ((folder ++ "/") ++ n) ∧
        "mops-test-".data <+: n.data) :
    ext.filter (seriesCopyPred folder) = [] := by
  rw [List.filter_eq_nil_iff]
  intro e he
  obtain ⟨src, n, he2, hn⟩ := hext e he
  subst he2
  simp [seriesCopyPred_instance folder src n hn]

theorem processEntry_spec (env : Env) (cfg : List (String × Int)) (provider folder : String)
    (srcRows : List Row) (pr vt : String) (st st' : PState)
    (h : processEntry env cfg provider folder srcRows pr vt st = .ok st') :
    ∃ ext rows crt,
      st'.evs = st.evs ++ ext ∧
      st'.out = st.out ++ rows ∧
      st'.createdK = st.createdK ++ crt ∧
      ((crt = [] ∧ st'.smeta = st.smeta) ∨
        (∃ m, crt = [(provider ++ "_" ++ pr, m)] ∧
          lookupA st.smeta (provider ++ "_" ++ pr) = none ∧
          st'.smeta = st.smeta ++ [(provider ++ "_" ++ pr, m)] ∧ vt = "Full Episode")) ∧
      (∀ e ∈ ext, (∃ msg, e = FSEvent.log msg) ∨
          ∃ src n, e = FSEvent.copyFile src ((folder ++ "/") ++ n)) ∧
      ext.filter (seriesCopyPred folder) = crt.flatMap (fun c => seriesTriple folder c.2) ∧
      (∀ x ∈ rows, x.1 = pr ∧ x.2.1 = vt ∧
          (vt = "Full Episode" → ∃ m, lookupA st'.smeta (provider ++ "_" ++ pr) = some m ∧
              seriesFieldsOf x.2.2 = metaTuple m)) := by
  unfold processEntry at h
  by_cases hg : (vt == "Short Video" && !(provider == "others" && pr == "twc")) = true
  · rw [if_pos hg] at h
    have hst : st = st' := by simpa using h
    subst hst
    exact ⟨[], [], [], by simp, by simp, by simp, Or.inl ⟨rfl, rfl⟩, by simp, by simp, by simp⟩
  · rw [if_neg hg] at h
    by_cases hc : ((lookupA cfg (countKey (pyReplaceChar (pyLower vt) ' ' '_') provider pr)).getD 0 == 0) = true
    · rw [if_pos hc] at h
      have hst : st = st' := by simpa using h
      subst hst
      exact ⟨[], [], [], by simp, by simp, by simp, Or.inl ⟨rfl, rfl⟩, by simp, by simp, by simp⟩
    · rw [if_neg hc] at h
      rcases hf : findTemplate srcRows vt with e | tmpl?
      · rw [hf] at h; simp [Bind.bind, Except.bind] at h
      · rw [hf] at h
        simp only [Bind.bind, Except.bind] at h
        rcases tmpl? with _ | template
        · -- no template: only the diagnostic is logged
          dsimp only at h
          have hst : ({ st with evs := st.evs ++
              [FSEvent.log ("No template row for " ++ vt ++ " in " ++ provider)] } : PState) = st' := by
            simpa using h
          subst hst
          refine ⟨[FSEvent.log ("No template row for " ++ vt ++ " in " ++ provider)], [], [],
            by simp, by simp, by simp, Or.inl ⟨rfl, rfl⟩, ?_, by simp [seriesCopyPred], by simp⟩
          intro e he
          simp at he
          exact Or.inl ⟨_, he⟩
        · -- template found: episode prep then the instance loop
          dsimp only at h
          by_cases he : (vt == "Full Episode") = true
          · have hvt : vt = "Full Episode" := by simpa using he
            rcases hm : lookupA st.smeta (provider ++ "_" ++ pr) with _ | m
            · -- creation case
              have hprep : episodePrep env provider folder pr vt st =
                  (some ((mkSeriesMeta env.dateStr st.gen).1),
                    { st with
                      smeta := setA st.smeta (provider ++ "_" ++ pr) ((mkSeriesMeta env.dateStr st.gen).1)
                      createdK := st.createdK ++ [((provider ++ "_" ++ pr), (mkSeriesMeta env.dateStr st.gen).1)]
                      evs := st.evs ++ seriesTriple folder ((mkSeriesMeta env.dateStr st.gen).1)
                      gen := (mkSeriesMeta env.dateStr st.gen).2 }) := by
                simp [episodePrep, he, hm]
              rw [hprep] at h
              obtain ⟨ext2, rows2, g2, heq, hext, hrows, hemp⟩ :=
                genInstances_spec env.dateStr folder pr vt template (some ((mkSeriesMeta env.dateStr st.gen).1))
                  (List.range ((lookupA cfg (countKey (pyReplaceChar (pyLower vt) ' ' '_') provider pr)).getD 0).toNat)
                  ({ st with
                      smeta := setA st.smeta (provider ++ "_" ++ pr) ((mkSeriesMeta env.dateStr st.gen).1)
                      createdK := st.createdK ++ [((provider ++ "_" ++ pr), (mkSeriesMeta env.dateStr st.gen).1)]
                      evs := st.evs ++ seriesTriple folder ((mkSeriesMeta env.dateStr st.gen).1)
                      gen := (mkSeriesMeta env.dateStr st.gen).2 })
              rw [heq] at h
              injection h with hst
              refine ⟨seriesTriple folder ((mkSeriesMeta env.dateStr st.gen).1) ++ ext2, rows2,
                [((provider ++ "_" ++ pr), (mkSeriesMeta env.dateStr st.gen).1)], ?_, ?_, ?_, ?_, ?_, ?_, ?_⟩
              · rw [← hst]; simp [List.append_assoc]
              · rw [← hst]
              · rw [← hst]
              · right
                refine ⟨(mkSeriesMeta env.dateStr st.gen).1, rfl, ?_, ?_, hvt⟩
                · rfl
                · rw [← hst]
                  simp [setA_of_lookup_none hm]
              · intro e hee
                rcases List.mem_append.mp hee with hc2 | hc2
                · simp only [seriesTriple, List.mem_cons, List.mem_singleton] at hc2
                  rcases hc2 with hc2 | hc2 | hc2 | hc2
                  · exact Or.inr ⟨_, _, hc2⟩
                  · exact Or.inr ⟨_, _, hc2⟩
                  · exact Or.inr ⟨_, _, hc2⟩
                  · simp at hc2
                · obtain ⟨src, n, he2, hn⟩ := hext e hc2
                  exact Or.inr ⟨src, n, he2⟩
              · rw [List.filter_append, filter_seriesTriple folder env.dateStr st.gen,
                  filter_instExt folder ext2 hext]
                simp
              · intro x hx
                obtain ⟨h1, h2, h3, h4, h5⟩ := hrows x hx
                refine ⟨h1, h2, fun _ => ⟨(mkSeriesMeta env.dateStr st.gen).1, ?_, h3 _ rfl⟩⟩
                rw [← hst]
                show lookupA (setA st.smeta (provider ++ "_" ++ pr) ((mkSeriesMeta env.dateStr st.gen).1)) (provider ++ "_" ++ pr) = _
                rw [setA_of_lookup_none hm, lookupA_append_none hm, lookupA_cons]
                simp
            · -- reuse case
              have hprep : episodePrep env provider folder pr vt st = (some m, st) := by
                simp [episodePrep, he, hm]
              rw [hprep] at h
              obtain ⟨ext2, rows2, g2, heq, hext, hrows, hemp⟩ :=
                genInstances_spec env.dateStr folder pr vt template (some m)
                  (List.range ((lookupA cfg (countKey (pyReplaceChar (pyLower vt) ' ' '_') provider pr)).getD 0).toNat) st
              rw [heq] at h
              injection h with hst
              refine ⟨ext2, rows2, [], ?_, ?_, ?_, Or.inl ⟨rfl, by rw [← hst]⟩, ?_, ?_, ?_⟩
              · rw [← hst]
              · rw [← hst]
              · rw [← hst]; simp
              · intro e hee
                obtain ⟨src, n, he2, hn⟩ := hext e hee
                exact Or.inr ⟨src, n, he2⟩
              · rw [filter_instExt folder ext2 hext]; simp
              · intro x hx
                obtain ⟨h1, h2, h3, h4, h5⟩ := hrows x hx
                refine ⟨h1, h2, fun _ => ⟨m, ?_, h3 _ rfl⟩⟩
                rw [← hst]
                exact hm
          · -- non-episode entry
            have hprep : episodePrep env provider folder pr vt st = (none, st) := by
              simp [episodePrep, he]
            rw [hprep] at h
            obtain ⟨ext2, rows2, g2, heq, hext, hrows, hemp⟩ :=
              genInstances_spec env.dateStr folder pr vt template none
                (List.range ((lookupA cfg (countKey (pyReplaceChar (pyLower vt) ' ' '_') provider pr)).getD 0).toNat) st
            rw [heq] at h
            injection h with hst
            refine ⟨ext2, rows2, [], ?_, ?_, ?_, Or.inl ⟨rfl, by rw [← hst]⟩, ?_, ?_, ?_⟩
            · rw [← hst]
            · rw [← hst]
            · rw [← hst]; simp
            · intro e hee
              obtain ⟨src, n, he2, hn⟩ := hext e hee
              exact Or.inr ⟨src, n, he2⟩
            · rw [filter_instExt folder ext2 hext]; simp
            · intro x hx
              obtain ⟨h1, h2, h3, h4, h5⟩ := hrows x hx
              refine ⟨h1, h2, fun hvt => ?_⟩
              rw [hvt] at he
              simp at he


theorem processEntries_spec (env : Env) (cfg : List (String × Int)) (provider folder : String)
    (srcRows : List Row) (entries : List (String × String)) :
    ∀ (st st' : PState),
      processEntries env cfg provider folder srcRows entries st = .ok st' →
      ∃ ext rows crt,
        st'.evs = st.evs ++ ext ∧
        st'.out = st.out ++ rows ∧
        st'.createdK = st.createdK ++ crt ∧
        st'.smeta = st.smeta ++ crt ∧
        ((st.smeta.map (fun c => c.1)).Nodup → ((st.smeta ++ crt).map (fun c => c.1)).Nodup) ∧
        (∀ e ∈ ext, (∃ msg, e = FSEvent.log msg) ∨
            ∃ src n, e = FSEvent.copyFile src ((folder ++ "/") ++ n)) ∧
        ext.filter (seriesCopyPred folder) = crt.flatMap (fun c => seriesTriple folder c.2) ∧
        (∀ x ∈ rows, x.2.1 = "Full Episode" →
            ∃ m, lookupA st'.smeta (provider ++ "_" ++ x.1) = some m ∧
              seriesFieldsOf x.2.2 = metaTuple m) := by
  induction entries with
  | nil =>
      intro st st' h
      have hst : st = st' := by simpa [processEntries] using h
      subst hst
      exact ⟨[], [], [], by simp, by simp, by simp, by simp, by simp, by simp, by simp, by simp⟩
  | cons entry rest ih =>
      intro st st' h
      unfold processEntries at h
      rcases h1 : processEntry env cfg provider folder srcRows entry.1 entry.2 st with e | st1
      · rw [h1] at h; simp [Bind.bind, Except.bind] at h
      · rw [h1] at h
        simp only [Bind.bind, Except.bind] at h
        obtain ⟨ext1, rows1, crt1, hev1, hout1, hck1, hsm1, hcls1, hfil1, hrows1⟩ :=
          processEntry_spec env cfg provider folder srcRows entry.1 entry.2 st st1 h1
        obtain ⟨ext2, rows2, crt2, hev2, hout2, hck2, hsm2, hnd2, hcls2, hfil2, hrows2⟩ :=
          ih st1 st' h
        have hsm1eq : st1.smeta = st.smeta ++ crt1 := by
          rcases hsm1 with ⟨hc, hs⟩ | ⟨m, hc, hlk, hs, hvt⟩
          · rw [hc, hs]; simp
          · rw [hc, hs]
        refine ⟨ext1 ++ ext2, rows1 ++ rows2, crt1 ++ crt2, ?_, ?_, ?_, ?_, ?_, ?_, ?_, ?_⟩
        · rw [hev2, hev1, List.append_assoc]
        · rw [hout2, hout1, List.append_assoc]
        · rw [hck2, hck1, List.append_assoc]
        · rw [hsm2, hsm1eq, List.append_assoc]
        · intro hnd
          have hnd1 : ((st.smeta ++ crt1).map (fun c => c.1)).Nodup := by
            rcases hsm1 with ⟨hc, _⟩ | ⟨m, hc, hlk, _, _⟩
            · rw [hc]; simpa using hnd
            · rw [hc]
              rw [List.map_append, List.nodup_append]
              refine ⟨hnd, by simp, ?_⟩
              intro a ha hb
              simp at hb
              rcases List.mem_map.mp ha with ⟨q, hq, hq1⟩
              have := (lookupA_eq_none_iff st.smeta (provider ++ "_" ++ entry.1)).mp hlk q hq
              rw [hq1] at this
              exact this hb
          have := hnd2 (by rw [hsm1eq]; exact hnd1)
          rw [hsm1eq, List.append_assoc] at this
          exact this
        · intro e he
          rcases List.mem_append.mp he with hc | hc
          · exact hcls1 e hc
          · exact hcls2 e hc
        · rw [List.filter_append, hfil1, hfil2, List.flatMap_append]
        · intro x hx
          rcases List.mem_append.mp hx with hc | hc
          · intro hft
            obtain ⟨h1a, h2a, h3a⟩ := hrows1 x hc
            obtain ⟨m, hm1, hm2⟩ := h3a (by rw [← h2a]; exact hft)
            refine ⟨m, ?_, hm2⟩
            rw [hsm2, h1a]
            exact lookupA_append_some hm1
          · exact hrows2 x hc


theorem processProvider_missing (env : Env) (cfg : List (String × Int)) (provider : String)
    (products : List String) (g : GenSt) (h : loadCsvRows env provider = .ok none) :
    processProvider env cfg provider products g = .ok (none, { initPState g with
      evs := [.log ("Error: Source CSV not found for " ++ provider ++ ". Skipping.")] }) := by
  unfold processProvider
  rw [h]
  rfl

theorem processProvider_emptyTable (env : Env) (cfg : List (String × Int)) (provider : String)
    (products : List String) (g : GenSt) (h : loadCsvRows env provider = .ok (some [])) :
    processProvider env cfg provider products g = .ok (none, { initPState g with
      evs := [.log ("Error: Source CSV is empty for " ++ provider ++ ". Skipping.")] }) := by
  unfold processProvider
  rw [h]
  rfl

theorem processProvider_spec (env : Env) (cfg : List (String × Int)) (provider : String)
    (products : List String) (g : GenSt) (folder? : Option String) (st : PState)
    (h : processProvider env cfg provider products g = .ok (folder?, st)) :
    (st.createdK.map (fun c => c.1)).Nodup
    ∧ st.evs.filter (seriesCopyPred (outputDir ++ "/" ++ provider)) =
        st.createdK.flatMap (fun c => seriesTriple (outputDir ++ "/" ++ provider) c.2)
    ∧ (∀ x ∈ st.out, x.2.1 = "Full Episode" →
        ∃ m, (provider ++ "_" ++ x.1, m) ∈ st.createdK ∧ seriesFieldsOf x.2.2 = metaTuple m)
    ∧ (∀ e ∈ st.evs, (∃ msg, e = FSEvent.log msg)
        ∨ e = FSEvent.mkdir (outputDir ++ "/" ++ provider)
        ∨ (∃ src n, e = FSEvent.copyFile src (((outputDir ++ "/" ++ provider) ++ "/") ++ n))
        ∨ (∃ n rws r0 rest2, loadCsvRows env provider = .ok (some (r0 :: rest2)) ∧
            e = FSEvent.writeCsv (((outputDir ++ "/" ++ provider) ++ "/") ++ n) (rkeys r0) rws ∧
            ∀ r ∈ rws, ∀ kv ∈ r, kv.1 ∈ rkeys r0))
    ∧ (st.out = [] → ∀ p hs rws, FSEvent.writeCsv p hs rws ∉ st.evs)
    ∧ (st.out ≠ [] → ∃ n rws r0 rest2, loadCsvRows env provider = .ok (some (r0 :: rest2)) ∧
        FSEvent.writeCsv (((outputDir ++ "/" ++ provider) ++ "/") ++ n) (rkeys r0) rws ∈ st.evs) := by
  unfold processProvider at h
  rcases hl : loadCsvRows env provider with e | rows?
  · rw [hl] at h; simp [Bind.bind, Except.bind] at h
  · rw [hl] at h
    simp only [Bind.bind, Except.bind] at h
    rcases rows? with _ | rows
    · dsimp only at h
      injection h with h2
      injection h2 with hf hst
      subst hst
      refine ⟨by simp [emptyAcc, initPState], by simp [initPState, seriesCopyPred], by simp [emptyAcc, initPState],
        ?_, by simp [emptyAcc, initPState], by simp [emptyAcc, initPState]⟩
      intro e he
      simp [emptyAcc, initPState] at he
      exact Or.inl ⟨_, he⟩
    · rcases rows with _ | ⟨r0, rest2⟩
      · dsimp only at h
        injection h with h2
        injection h2 with hf hst
        subst hst
        refine ⟨by simp [emptyAcc, initPState], by simp [initPState, seriesCopyPred], by simp [emptyAcc, initPState],
          ?_, by simp [emptyAcc, initPState], by simp [emptyAcc, initPState]⟩
        intro e he
        simp [emptyAcc, initPState] at he
        exact Or.inl ⟨_, he⟩
      · dsimp only at h
        rcases hp : processEntries env cfg provider (outputDir ++ "/" ++ provider) (r0 :: rest2)
            (entriesFor products)
            { initPState g with evs := [FSEvent.mkdir (outputDir ++ "/" ++ provider)] } with e | st1
        · rw [hp] at h; simp [Bind.bind, Except.bind] at h
        · rw [hp] at h
          simp only [Bind.bind, Except.bind] at h
          obtain ⟨ext, rows2, crt, hev, hout, hck, hsm, hnd, hcls, hfil, hrows⟩ :=
            processEntries_spec env cfg provider (outputDir ++ "/" ++ provider) (r0 :: rest2)
              (entriesFor products) _ st1 hp
          simp only [initPState] at hev hout hck hsm hnd
          have hnd2 : (st1.createdK.map (fun c => c.1)).Nodup := by
            rw [hck]
            simpa using hnd (by simp)
          have hfil2 : st1.evs.filter (seriesCopyPred (outputDir ++ "/" ++ provider)) =
              st1.createdK.flatMap (fun c => seriesTriple (outputDir ++ "/" ++ provider) c.2) := by
            rw [hev, hck, List.filter_append]
            have hmk : (List.filter (seriesCopyPred (outputDir ++ "/" ++ provider))
                [FSEvent.mkdir (outputDir ++ "/" ++ provider)]) = [] := by
              simp [seriesCopyPred]
            rw [hmk, hfil]
            simp
          have hrows2 : ∀ x ∈ st1.out, x.2.1 = "Full Episode" →
              ∃ m, (provider ++ "_" ++ x.1, m) ∈ st1.createdK ∧
                seriesFieldsOf x.2.2 = metaTuple m := by
            intro x hx hft
            have hx2 : x ∈ rows2 := by
              have := hout
              simp at this
              rw [this] at hx
              exact hx
            obtain ⟨m, hm1, hm2⟩ := hrows x hx2 hft
            refine ⟨m, ?_, hm2⟩
            rw [hck]
            have : st1.smeta = crt := by rw [hsm]; simp
            rw [this] at hm1
            simpa using lookupA_mem hm1
          have hcls2 : ∀ e ∈ st1.evs, (∃ msg, e = FSEvent.log msg)
              ∨ e = FSEvent.mkdir (outputDir ++ "/" ++ provider)
              ∨ (∃ src n, e = FSEvent.copyFile src (((outputDir ++ "/" ++ provider) ++ "/") ++ n)) := by
            intro e he
            rw [hev] at he
            rcases List.mem_append.mp he with hc | hc
            · simp at hc
              exact Or.inr (Or.inl hc)
            · rcases hcls e hc with hlog | hcp
              · exact Or.inl hlog
              · exact Or.inr (Or.inr hcp)
          rcases hoe : st1.out.isEmpty with _ | _
          · -- save branch
            rw [hoe] at h
            simp only [Bool.false_eq_true, if_false] at h
            injection h with h2
            injection h2 with hf hst
            subst hst
            simp only [saveCsv]
            refine ⟨hnd2, ?_, hrows2, ?_, ?_, ?_⟩
            · rw [List.filter_append, List.filter_append, hfil2]
              have hsv : (List.filter (seriesCopyPred (outputDir ++ "/" ++ provider))
                  [FSEvent.mkdir (outputDir ++ "/" ++ provider),
                   FSEvent.writeCsv ((outputDir ++ "/" ++ provider) ++ "/" ++
                     ("generated-" ++ provider ++ "-test-package-" ++
                       takeRightStr (GenSt.draw st1.gen).1 4 ++ ".csv")) (rkeys r0)
                     ((st1.out.map (fun t => t.2.2)).map
                       (fun r => r.filter (fun p => (rkeys r0).contains p.1)))]) = [] := by
                simp [seriesCopyPred]
              rw [hsv]
              simp [seriesCopyPred]
            · intro e he
              rcases List.mem_append.mp he with he1 | he2
              · rcases List.mem_append.mp he1 with he3 | he4
                · rcases hcls2 e he3 with h1 | h2 | h3
                  · exact Or.inl h1
                  · exact Or.inr (Or.inl h2)
                  · exact Or.inr (Or.inr (Or.inl h3))
                · rcases List.mem_cons.mp he4 with hm1 | hm2
                  · exact Or.inr (Or.inl hm1)
                  · rcases List.mem_cons.mp hm2 with hw | h0
                    · subst hw
                      refine Or.inr (Or.inr (Or.inr ⟨_, _, r0, rest2, rfl, rfl, ?_⟩))
                      intro r hr kv hkv
                      rcases List.mem_map.mp hr with ⟨row, hrow, hfe⟩
                      subst hfe
                      have hcont := (List.mem_filter.mp hkv).2
                      exact List.mem_of_elem_eq_true hcont
                    · simp at h0
              · simp only [List.mem_singleton] at he2
                exact Or.inl ⟨_, he2⟩
            · intro h0
              exfalso
              have h0b : st1.out = [] := h0
              rw [h0b] at hoe
              simp at hoe
            · intro _
              refine ⟨"generated-" ++ provider ++ "-test-package-" ++
                  takeRightStr (GenSt.draw st1.gen).1 4 ++ ".csv",
                (st1.out.map (fun t => t.2.2)).map
                  (fun r => r.filter (fun p => (rkeys r0).contains p.1)),
                r0, rest2, rfl, ?_⟩
              apply List.mem_append.mpr
              left
              apply List.mem_append.mpr
              right
              exact List.mem_cons.mpr (Or.inr (List.mem_cons.mpr (Or.inl rfl)))
          · -- empty branch
            rw [hoe] at h
            simp only [eq_self_iff_true, if_true] at h
            injection h with h2
            injection h2 with hf hst
            subst hst
            have hoe2 : st1.out = [] := by
              rcases hoo : st1.out with _ | _
              · rfl
              · rw [hoo] at hoe; simp at hoe
            refine ⟨hnd2, hfil2, hrows2, ?_, ?_, ?_⟩
            · intro e he
              rcases hcls2 e he with h1 | h2 | h3
              · exact Or.inl h1
              · exact Or.inr (Or.inl h2)
              · exact Or.inr (Or.inr (Or.inl h3))
            · intro _ p hs rws hmem
              rcases hcls2 _ hmem with ⟨msg, hbad⟩ | hbad | ⟨src, n, hbad⟩ <;> simp at hbad
            · intro hne
              exact absurd hoe2 hne


theorem runProviders_spec (env : Env) (cfg : List (String × Int)) :
    ∀ (provs : List (String × List String)) (g : GenSt) (acc acc' : RunAcc) (g' : GenSt),
      runProviders env cfg provs g acc = .ok (acc', g') →
      ∃ evs2 tagged2 created2 folders2,
        acc'.evs = acc.evs ++ evs2 ∧
        acc'.tagged = acc.tagged ++ tagged2 ∧
        acc'.created = acc.created ++ created2 ∧
        acc'.folders = acc.folders ++ folders2 ∧
        (∀ t ∈ tagged2, t.1 ∈ provs.map (fun q => q.1)) ∧
        (∀ c ∈ created2, c.1 ∈ provs.map (fun q => q.1)) ∧
        ((provs.map (fun q => q.1)).Nodup →
          (created2.map (fun c => (c.1, c.2.1))).Nodup) ∧
        (∀ t ∈ tagged2, t.2.2.1 = "Full Episode" →
          ∃ m, (t.1, t.1 ++ "_" ++ t.2.1, m) ∈ created2 ∧
            seriesFieldsOf t.2.2.2 = metaTuple m) := by
  intro provs
  induction provs with
  | nil =>
      intro g acc acc' g' h
      have hax : acc = acc' ∧ g = g' := by
        have := h
        simp [runProviders] at this
        exact ⟨this.1, this.2⟩
      obtain ⟨ha, hg⟩ := hax
      subst ha
      exact ⟨[], [], [], [], by simp, by simp, by simp, by simp, by simp, by simp, by simp, by simp⟩
  | cons pp rest ih =>
      intro g acc acc' g' h
      unfold runProviders at h
      rcases hpp : processProvider env cfg pp.1 pp.2 g with e | fs
      · rw [hpp] at h; simp [Bind.bind, Except.bind] at h
      · rw [hpp] at h
        simp only [Bind.bind, Except.bind] at h
        obtain ⟨folder?, st⟩ := fs
        obtain ⟨hnd1, hfil1, hlink1, hcls1, hwe1, hwn1⟩ :=
          processProvider_spec env cfg pp.1 pp.2 g folder? st hpp
        obtain ⟨evs2, tagged2, created2, folders2, ha1, ha2, ha3, ha4, htp, hcp, hndr, hlinkr⟩ :=
          ih st.gen _ acc' g' h
        dsimp only at ha1 ha2 ha3 ha4
        refine ⟨st.evs ++ evs2, st.out.map (fun t => (pp.1, t)) ++ tagged2,
          st.createdK.map (fun c => (pp.1, c)) ++ created2,
          (match folder? with | some f => [f] | none => []) ++ folders2,
          ?_, ?_, ?_, ?_, ?_, ?_, ?_, ?_⟩
        · rw [ha1]; simp [List.append_assoc]
        · rw [ha2]; simp [List.append_assoc]
        · rw [ha3]; simp [List.append_assoc]
        · rcases folder? with _ | f <;> simp only [ha4, List.append_assoc]
        · intro t ht
          rcases List.mem_append.mp ht with hc | hc
          · rcases List.mem_map.mp hc with ⟨x, hx, hxe⟩
            rw [← hxe]
            simp
          · have := htp t hc
            simp at this ⊢
            exact Or.inr this
        · intro c hc
          rcases List.mem_append.mp hc with hc | hc
          · rcases List.mem_map.mp hc with ⟨x, hx, hxe⟩
            rw [← hxe]
            simp
          · have := hcp c hc
            simp at this ⊢
            exact Or.inr this
        · intro hnd
          rw [List.map_cons, List.nodup_cons] at hnd
          rw [List.map_append, List.nodup_append]
          refine ⟨?_, hndr hnd.2, ?_⟩
          · have : (st.createdK.map (fun c => (pp.1, c))).map (fun c => (c.1, c.2.1)) =
                (st.createdK.map (fun c => c.1)).map (fun k => (pp.1, k)) := by
              simp [List.map_map]
            rw [this]
            exact hnd1.map (fun a b hab => by simpa using hab)
          · intro a ha hb
            rcases List.mem_map.mp ha with ⟨x, hx, hxe⟩
            rcases List.mem_map.mp hb with ⟨y, hy, hye⟩
            have h1 : a.1 = pp.1 := by rw [← hxe]; rcases List.mem_map.mp hx with ⟨z, hz, hze⟩; rw [← hze]
            have h2 : a.1 ∈ rest.map (fun q => q.1) := by
              rw [← hye]
              rcases hcp y hy with hmem
              simpa using hmem
            rw [h1] at h2
            exact hnd.1 (by simpa using h2)
        · intro t ht hep
          rcases List.mem_append.mp ht with hc | hc
          · rcases List.mem_map.mp hc with ⟨x, hx, hxe⟩
            have hx2 : x.2.1 = "Full Episode" := by
              rw [← hxe] at hep
              exact hep
            obtain ⟨m, hm1, hm2⟩ := hlink1 x hx hx2
            refine ⟨m, ?_, ?_⟩
            · apply List.mem_append.mpr
              left
              apply List.mem_map.mpr
              refine ⟨(pp.1 ++ "_" ++ x.1, m), hm1, ?_⟩
              rw [← hxe]
            · rw [← hxe]
              exact hm2
          · obtain ⟨m, hm1, hm2⟩ := hlinkr t hc hep
            exact ⟨m, List.mem_append.mpr (Or.inr hm1), hm2⟩

-- === Run-level lemmas ===


theorem archiveStep_fields (env : Env) (acc : RunAcc) (g : GenSt) :
    (archiveStep env acc g).evs = acc.evs ∧ (archiveStep env acc g).tagged = acc.tagged ∧
    (archiveStep env acc g).created = acc.created ∧ (archiveStep env acc g).folders = acc.folders := by
  simp only [archiveStep]
  split <;> exact ⟨rfl, rfl, rfl, rfl⟩

/-- The run-level accumulators of a successful run are exactly what the
provider loop produced. -/
theorem runGeneration_acc (mode : String) (mc? : Option MC) (env : Env) (g : GenSt)
    (out : RunOut) (hok : runGeneration mode mc? env g = .ok out) :
    (out.tagged = [] ∧ out.created = []) ∨
    ∃ cfg acc g1, runProviders env cfg (provsFor mode mc?) g emptyAcc = .ok (acc, g1) ∧
      out.tagged = acc.tagged ∧ out.created = acc.created ∧ out.evs = acc.evs ∧
      out.folders = acc.folders := by
  unfold runGeneration at hok
  by_cases hd : (mode == "default") = true
  · rw [if_pos hd] at hok
    rcases hrp : runProviders env buildConfigDefault (provsFor mode mc?) g emptyAcc with e | ag
    · rw [hrp] at hok; simp [Bind.bind, Except.bind] at hok
    · rw [hrp] at hok
      simp only [Bind.bind, Except.bind] at hok
      obtain ⟨acc, g1⟩ := ag
      injection hok with hout
      obtain ⟨h1, h2, h3, h4⟩ := archiveStep_fields env acc g1
      exact Or.inr ⟨buildConfigDefault, acc, g1, hrp,
        by rw [← hout]; exact h2.symm ▸ rfl, by rw [← hout, h3], by rw [← hout, h1],
        by rw [← hout, h4]⟩
  · rw [if_neg hd] at hok
    by_cases hmn : (mode == "manual") = true
    · rw [if_pos hmn] at hok
      rcases mc? with _ | mc
      · simp only [mkRunOut] at hok
        injection hok with hout
        left
        rw [← hout]
        exact ⟨rfl, rfl⟩
      · rcases mc with _ | ⟨pp, mcRest⟩
        · simp only [mkRunOut] at hok
          injection hok with hout
          left
          rw [← hout]
          exact ⟨rfl, rfl⟩
        · dsimp only at hok
          rcases hcfg : buildConfigManual (pp :: mcRest) with e | cfg
          · rw [hcfg] at hok; simp [Bind.bind, Except.bind] at hok
          · rw [hcfg] at hok
            simp only [Bind.bind, Except.bind] at hok
            rcases hrp : runProviders env cfg (provsFor mode (some (pp :: mcRest))) g emptyAcc with e | ag
            · rw [hrp] at hok; simp [Bind.bind, Except.bind] at hok
            · rw [hrp] at hok
              simp only [Bind.bind, Except.bind] at hok
              obtain ⟨acc, g1⟩ := ag
              injection hok with hout
              obtain ⟨h1, h2, h3, h4⟩ := archiveStep_fields env acc g1
              exact Or.inr ⟨cfg, acc, g1, hrp,
                by rw [← hout, h2], by rw [← hout, h3], by rw [← hout, h1], by rw [← hout, h4]⟩
    · rw [if_neg hmn] at hok
      simp only [mkRunOut] at hok
      injection hok with hout
      left
      rw [← hout]
      exact ⟨rfl, rfl⟩

-- === Claim theorems ===


/-- C1: within a single run, for every (provider, product) pair a
SeriesIdentity is created at most once; all episode records generated for the
pair carry byte-identical series title, series description, season title,
season description, season number and the three series/season asset
filenames; and, per provider iteration, the series/season asset-copy events
are exactly the three copies of each created identity, performed once at its
creation. -/
theorem c1_series_identity_once_and_shared (mode : String) (mc? : Option MC) (env : Env)
    (g : GenSt) (out : RunOut) (hok : runGeneration mode mc? env g = .ok out)
    (hnd : ((provsFor mode mc?).map (fun q => q.1)).Nodup) :
    (out.created.map (fun c => (c.1, c.2.1))).Nodup
    ∧ (∀ p pr r1 r2, (p, pr, "Full Episode", r1) ∈ out.tagged →
        (p, pr, "Full Episode", r2) ∈ out.tagged → seriesFieldsOf r1 = seriesFieldsOf r2)
    ∧ (∀ envx cfg provider products gx fo st,
        processProvider envx cfg provider products gx = .ok (fo, st) →
        st.evs.filter (seriesCopyPred (outputDir ++ "/" ++ provider)) =
          st.createdK.flatMap (fun c => seriesTriple (outputDir ++ "/" ++ provider) c.2)) := by
  refine ⟨?_, ?_, ?_⟩
  · rcases runGeneration_acc mode mc? env g out hok with ⟨ht, hc⟩ | ⟨cfg, acc, g1, hrp, ht, hc, he, hfo⟩
    · rw [hc]; simp
    · obtain ⟨evs2, tagged2, created2, folders2, ha1, ha2, ha3, ha4, htp, hcp, hndr, hlinkr⟩ :=
        runProviders_spec env cfg (provsFor mode mc?) g emptyAcc acc g1 hrp
      rw [hc, ha3]
      simp only [emptyAcc, List.nil_append]
      exact hndr hnd
  · intro p pr r1 r2 h1 h2
    rcases runGeneration_acc mode mc? env g out hok with ⟨ht, hc⟩ | ⟨cfg, acc, g1, hrp, ht, hc, he, hfo⟩
    · rw [ht] at h1; simp at h1
    · obtain ⟨evs2, tagged2, created2, folders2, ha1, ha2, ha3, ha4, htp, hcp, hndr, hlinkr⟩ :=
        runProviders_spec env cfg (provsFor mode mc?) g emptyAcc acc g1 hrp
      rw [ht, ha2] at h1 h2
      simp only [emptyAcc, List.nil_append] at h1 h2
      obtain ⟨m1, hm1, hf1⟩ := hlinkr _ h1 rfl
      obtain ⟨m2, hm2, hf2⟩ := hlinkr _ h2 rfl
      have hndp := hndr hnd
      have := List.inj_on_of_nodup_map hndp hm1 hm2 rfl
      have hmm : m1 = m2 := by
        injection this with _ h3
        injection h3
      rw [hf1, hf2, hmm]
  · intro envx cfg provider products gx fo st hpp
    exact (processProvider_spec envx cfg provider products gx fo st hpp).2.1

theorem c1_series_identity_once_and_shared_witness :
    (((provsFor "manual" (some mcW)).map (fun q => q.1)).Nodup)
    ∧ ((runW.created.map (fun c => (c.1, c.2.1))).Nodup
      ∧ (∀ p pr r1 r2, (p, pr, "Full Episode", r1) ∈ runW.tagged →
          (p, pr, "Full Episode", r2) ∈ runW.tagged → seriesFieldsOf r1 = seriesFieldsOf r2)
      ∧ (∀ envx cfg provider products gx fo st,
          processProvider envx cfg provider products gx = .ok (fo, st) →
          st.evs.filter (seriesCopyPred (outputDir ++ "/" ++ provider)) =
            st.createdK.flatMap (fun c => seriesTriple (outputDir ++ "/" ++ provider) c.2))) :=
  ⟨by decide, c1_series_identity_once_and_shared "manual" (some mcW) envW gW runW (by rfl)
    (by decide)⟩


/-- C6: for a provider with a non-empty generated record list, the written
output table's field set is exactly the provider's source table's field set
(the header row of the loaded CSV); every written record's fields are a
subset of that set (extra fields dropped, none added); and when the record
list is empty no output file is written. -/
theorem c6_schema_fidelity (env : Env) (cfg : List (String × Int)) (provider : String)
    (products : List String) (g : GenSt) (fo : Option String) (st : PState)
    (h : processProvider env cfg provider products g = .ok (fo, st)) :
    (∀ path hs rws, FSEvent.writeCsv path hs rws ∈ st.evs →
        (∃ r0 rest2, loadCsvRows env provider = .ok (some (r0 :: rest2)) ∧ hs = rkeys r0)
        ∧ ∀ r ∈ rws, ∀ kv ∈ r, kv.1 ∈ hs)
    ∧ (st.out ≠ [] → ∃ path hs rws, FSEvent.writeCsv path hs rws ∈ st.evs ∧
        ∃ r0 rest2, loadCsvRows env provider = .ok (some (r0 :: rest2)) ∧ hs = rkeys r0)
    ∧ (st.out = [] → ∀ path hs rws, FSEvent.writeCsv path hs rws ∉ st.evs) := by
  obtain ⟨hnd1, hfil1, hlink1, hcls1, hwe1, hwn1⟩ :=
    processProvider_spec env cfg provider products g fo st h
  refine ⟨?_, ?_, hwe1⟩
  · intro path hs rws hmem
    rcases hcls1 _ hmem with ⟨msg, hbad⟩ | hbad | ⟨src, n, hbad⟩ |
        ⟨n, rws2, r0, rest2, hload, heq, hkeys⟩
    · simp at hbad
    · simp at hbad
    · simp at hbad
    · injection heq with h1 h2 h3
      subst h2
      subst h3
      exact ⟨⟨r0, rest2, hload, rfl⟩, hkeys⟩
  · intro hne
    obtain ⟨n, rws, r0, rest2, hload, hmem⟩ := hwn1 hne
    exact ⟨_, _, _, hmem, r0, rest2, hload, rfl⟩

theorem c6_schema_fidelity_witness :
    processProvider envW buildConfigDefault "others" ["localnow"] gW = .ok provOutW
    ∧ ((∀ path hs rws, FSEvent.writeCsv path hs rws ∈ provOutW.2.evs →
        (∃ r0 rest2, loadCsvRows envW "others" = .ok (some (r0 :: rest2)) ∧ hs = rkeys r0)
        ∧ ∀ r ∈ rws, ∀ kv ∈ r, kv.1 ∈ hs)
    ∧ (provOutW.2.out ≠ [] → ∃ path hs rws, FSEvent.writeCsv path hs rws ∈ provOutW.2.evs ∧
        ∃ r0 rest2, loadCsvRows envW "others" = .ok (some (r0 :: rest2)) ∧ hs = rkeys r0)
    ∧ (provOutW.2.out = [] → ∀ path hs rws, FSEvent.writeCsv path hs rws ∉ provOutW.2.evs)) :=
  ⟨by rfl, c6_schema_fidelity envW buildConfigDefault "others" ["localnow"] gW
    provOutW.1 provOutW.2 (by rfl)⟩

/-- C10: a manual-mode input naming the unknown provider `netflix` makes
`run_generation` abort with an uncaught `KeyError` from the
`SOURCE_CSV_PATHS[provider]` lookup, while a missing source *file* of a known
provider is caught and skipped. -/
theorem c10_unknown_provider_aborts :
    runGeneration "manual" (some mcU) envW gW = .error (.keyError "netflix")
    ∧ lookupA sourceCsvPaths "netflix" = none
    ∧ processProvider envW buildConfigDefault "netflix" ["localnow"] gW =
        .error (.keyError "netflix")
    ∧ (∀ env cfg products g, loadCsvRows env "others" = .ok none →
        processProvider env cfg "others" products g = .ok (none, { initPState g with
          evs := [.log ("Error: Source CSV not found for others. Skipping.")] })) := by
  refine ⟨by rfl, by rfl, by rfl, ?_⟩
  intro env cfg products g hmiss
  exact processProvider_missing env cfg "others" products g hmiss

/-- C7: evidence of the code bug — a non-numeric manual count raises an
uncontrolled `ValueError` out of `run_generation` instead of a typed
failure result, and a negative count string is stored in the count table,
violating the never-negative invariant. -/
theorem c7_uncontrolled_count_parse :
    runGeneration "manual" (some mcBad) envW gW = .error (.valueError "abc")
    ∧ buildConfigManual mcNeg =
        .ok [("full_movie_others_localnow", -2), ("full_episode_others_localnow", 0)]
    ∧ lookupA [("full_movie_others_localnow", (-2 : Int)),
        ("full_episode_others_localnow", 0)] "full_movie_others_localnow" = some (-2) := by
  refine ⟨by rfl, by rfl, by rfl⟩
theorem c10_unknown_provider_aborts_witness :
    loadCsvRows envMissingW "others" = .ok none
    ∧ processProvider envMissingW buildConfigDefault "others" ["localnow"] gW =
        .ok (none, { initPState gW with
          evs := [.log ("Error: Source CSV not found for others. Skipping.")] }) :=
  ⟨by rfl, (c10_unknown_provider_aborts.2.2.2) envMissingW buildConfigDefault ["localnow"] gW
    (by rfl)⟩


theorem appBuildAux_spec (form : List (String × String)) :
    ∀ (provs : List (String × List String)) (mc0 mc : MC),
      appBuildAux form provs mc0 = .ok mc →
      ∀ pp ∈ mc, pp ∈ mc0 ∨
        ∃ prods, (pp.1, prods) ∈ provs ∧ appProviderHas form pp.1 prods = .ok true := by
  intro provs
  induction provs with
  | nil =>
      intro mc0 mc h pp hpp
      have h2 : mc0 = mc := by simpa [appBuildAux] using h
      rw [h2]
      exact Or.inl hpp
  | cons q rest ih =>
      intro mc0 mc h pp hpp
      unfold appBuildAux at h
      rcases hb : appProviderHas form q.1 q.2 with e | b
      · rw [hb] at h; simp [Bind.bind, Except.bind] at h
      · rw [hb] at h
        simp only [Bind.bind, Except.bind] at h
        rcases b with _ | _
        · simp only [Bool.false_eq_true, if_false] at h
          rcases ih mc0 mc h pp hpp with hin | ⟨prods, hp1, hp2⟩
          · exact Or.inl hin
          · exact Or.inr ⟨prods, List.mem_cons_of_mem _ hp1, hp2⟩
        · simp only [if_true] at h
          rcases ih _ mc h pp hpp with hin | ⟨prods, hp1, hp2⟩
          · rcases List.mem_append.mp hin with hin | hin
            · exact Or.inl hin
            · simp only [List.mem_singleton] at hin
              subst hin
              exact Or.inr ⟨q.2, by simp, hb⟩
          · exact Or.inr ⟨prods, List.mem_cons_of_mem _ hp1, hp2⟩

/-- C2 counterexample: a manual config whose only provider (warnerbros) has
all-zero counts is handed directly to `run_generation`; the engine keeps the
zero entries in its count table, loads the provider's source, creates its
output folder and registers it — the provider is neither absent from the
table nor free of processing. -/
theorem c2_counterexample :
    buildConfigManual mcZ =
      .ok [("full_movie_warnerbros_localnow", 0), ("full_episode_warnerbros_localnow", 0)]
    ∧ runGeneration "manual" (some mcZ) envW gW = .ok runZ
    ∧ FSEvent.mkdir "GENERATED_PACKAGES/warnerbros" ∈ runZ.evs
    ∧ runZ.folders = ["GENERATED_PACKAGES/warnerbros"] :=
  ⟨by rfl, by rfl, by decide, by rfl⟩

/-- C2 amended: the all-zero-provider drop is performed by the web boundary
(`app.generate`) before the engine is called — every provider present in the
`manual_configs` it builds has some product whose submitted counts parse to a
positive value; `run_generation` itself keeps zero entries for any provider
present in its input (see the counterexample). -/
theorem c2_drop_happens_at_app_boundary (form : List (String × String)) (mc : MC)
    (h : appBuildManualConfigs form = .ok (some mc)) :
    ∀ pp ∈ mc, ∃ prods, (pp.1, prods) ∈ providerProducts ∧
      appProviderHas form pp.1 prods = .ok true := by
  intro pp hpp
  unfold appBuildManualConfigs at h
  rcases ha : appBuildAux form providerProducts [] with e | mc1
  · rw [ha] at h; simp [Bind.bind, Except.bind] at h
  · rw [ha] at h
    simp only [Bind.bind, Except.bind] at h
    have hmc : mc1 = mc := by
      rcases he : mc1.isEmpty with _ | _
      · rw [he] at h
        simp only [Bool.false_eq_true, if_false, pure, Except.pure] at h
        injection h with h2
        injection h2 with h3
      · rw [he] at h
        simp only [if_true, pure, Except.pure] at h
        injection h with h2
        injection h2
    rw [← hmc] at hpp
    rcases appBuildAux_spec form providerProducts [] mc1 ha pp hpp with hin | hev
    · simp at hin
    · exact hev

theorem c2_drop_happens_at_app_boundary_witness :
    appBuildManualConfigs formW = .ok (some appMCW)
    ∧ ∀ pp ∈ appMCW, ∃ prods, (pp.1, prods) ∈ providerProducts ∧
        appProviderHas formW pp.1 prods = .ok true :=
  ⟨by rfl, c2_drop_happens_at_app_boundary formW appMCW (by rfl)⟩

/-- C4 counterexample: with a source table containing no `Full Episode`
template and one episode requested, the engine prints the diagnostic and
generates nothing at all — there is no fallback to the provider's first
record, contradicting the claimed fallback behaviour. -/
theorem c4_counterexample :
    runGeneration "manual" (some mcC4) envC4 gW = .ok runC4
    ∧ runC4.tagged = []
    ∧ FSEvent.log "No template row for Full Episode in others" ∈ runC4.evs
    ∧ createdFiles runC4.evs = []
    ∧ runC4.result.1 = none :=
  ⟨by rfl, by rfl, by decide, by rfl, by rfl⟩

/-- C4 amended: when a provider's source table contains no record matching a
requested content-type label (case-insensitive, trimmed) and the requested
count is non-zero, the engine emits the diagnostic
`No template row for {vtype} in {provider}` and skips the entry entirely:
no instances are generated, no assets copied, no series identity created. -/
theorem c4_missing_template_skips_entry (env : Env) (cfg : List (String × Int))
    (provider folder : String) (srcRows : List Row) (pr vt : String) (st : PState)
    (hguard : (vt == "Short Video" && !(provider == "others" && pr == "twc")) = false)
    (hcount : ((lookupA cfg (countKey (pyReplaceChar (pyLower vt) ' ' '_') provider pr)).getD 0
        == 0) = false)
    (hft : findTemplate srcRows vt = .ok none) :
    processEntry env cfg provider folder srcRows pr vt st =
      .ok { st with evs := st.evs ++
        [.log ("No template row for " ++ vt ++ " in " ++ provider)] } := by
  unfold processEntry
  rw [if_neg ?hg]
  case hg => rw [hguard]; simp
  rw [if_neg ?hc]
  case hc => rw [hcount]; simp
  rw [hft]
  rfl

theorem c4_missing_template_skips_entry_witness :
    ((("Full Episode" : String) == "Short Video" &&
        !(("others" : String) == "others" && ("localnow" : String) == "twc")) = false)
    ∧ (((lookupA cfgC4 (countKey (pyReplaceChar (pyLower "Full Episode") ' ' '_') "others"
        "localnow")).getD 0 == 0) = false)
    ∧ findTemplate [rowMovieW] "Full Episode" = .ok none
    ∧ processEntry envC4 cfgC4 "others" "GENERATED_PACKAGES/others" [rowMovieW] "localnow"
        "Full Episode" (initPState gW) =
      .ok { initPState gW with evs := (initPState gW).evs ++
        [.log ("No template row for " ++ "Full Episode" ++ " in " ++ "others")] } :=
  ⟨by rfl, by rfl, by rfl,
    c4_missing_template_skips_entry envC4 cfgC4 "others" "GENERATED_PACKAGES/others" [rowMovieW]
      "localnow" "Full Episode" (initPState gW) (by rfl) (by rfl) (by rfl)⟩

/-- C5 counterexample: the template's `Video Type` value `FULL MOVIE` matches
the requested `Full Movie` label only up to case, and the generated record
retains `FULL MOVIE` in its `Video Type` field — the field used for template
selection and by the summary is not overwritten with the requested label. -/
theorem c5_counterexample :
    runGeneration "manual" (some mcC5) envC5 gW = .ok runC5
    ∧ runC5.tagged.map (fun t => t.2.2.1) = ["Full Movie"]
    ∧ runC5.tagged.map (fun t => rget t.2.2.2 "Video Type") = [some "FULL MOVIE"]
    ∧ (some "FULL MOVIE" : Option String) ≠ some "Full Movie" :=
  ⟨by rfl, by rfl, by rfl, by decide⟩

/-- C5 amended: the engine overwrites a separate `Programming Type` field
with the requested label; the `Video Type` field keeps the template's
original value, which matches the requested label only after trimming and
lowercasing (because templates are selected case-insensitively); the
identity fields and the three asset-filename fields are overwritten from the
generated name set as claimed. -/
theorem c5_programming_type_not_video_type :
    (∀ t n vt pr, rget (buildCommonRow t n vt pr) "Programming Type" = some vt)
    ∧ (∀ t n vt pr, rget (buildCommonRow t n vt pr) "Video Type" = rget t "Video Type")
    ∧ (∀ row m i, rget (addEpisodeFields row m i) "Programming Type" =
          rget row "Programming Type"
        ∧ rget (addEpisodeFields row m i) "Video Type" = rget row "Video Type")
    ∧ (∀ t n vt pr,
        rget (buildCommonRow t n vt pr) "Movie / Episode Title" = some n.title
        ∧ rget (buildCommonRow t n vt pr) "Movie / Episode Short Description" =
            some n.short_desc
        ∧ rget (buildCommonRow t n vt pr) "Movie / Episode Description" = some n.long_desc
        ∧ rget (buildCommonRow t n vt pr)
            "Movie/Episode Video File Name (including extension)" = some n.video
        ∧ rget (buildCommonRow t n vt pr)
            "Movie / Episode Landscape Image Name (including extension)" = some n.landscape
        ∧ rget (buildCommonRow t n vt pr)
            "Movie Poster Image Name (including extension)" = some n.portrait)
    ∧ (∀ rows vt r, findTemplate rows vt = .ok (some r) →
        ∃ v, rget r "Video Type" = some v ∧ pyLower (pyStrip v) = pyLower vt) := by
  refine ⟨rget_buildCommon_pt, rget_buildCommon_vt,
    fun row m i => ⟨rget_addEpisode_pt row m i, rget_addEpisode_vt row m i⟩,
    fun t n vt pr => ⟨rget_buildCommon_title t n vt pr, rget_buildCommon_shortDesc t n vt pr,
      rget_buildCommon_longDesc t n vt pr, rget_buildCommon_video t n vt pr,
      rget_buildCommon_landscape t n vt pr, rget_buildCommon_portrait t n vt pr⟩,
    findTemplate_ok_matches⟩

theorem c5_programming_type_not_video_type_witness :
    findTemplate [rowShoutW] "Full Movie" = .ok (some rowShoutW)
    ∧ (∃ v, rget rowShoutW "Video Type" = some v ∧
        pyLower (pyStrip v) = pyLower "Full Movie") :=
  ⟨by rfl, c5_programming_type_not_video_type.2.2.2.2 [rowShoutW] "Full Movie" rowShoutW
    (by rfl)⟩


theorem createdFiles_append (a b : List FSEvent) :
    createdFiles (a ++ b) = createdFiles a ++ createdFiles b := by
  induction a with
  | nil => rfl
  | cons e t ih =>
      cases e <;> simp [createdFiles, List.foldr_cons] at ih ⊢ <;> rw [← ih]

theorem allZero_setA (cfg : List (String × Int)) (h : allZeroCfg cfg) (k : String) :
    allZeroCfg (setA cfg k 0) := by
  intro k' v hl
  rw [lookupA_setA] at hl
  by_cases hk : (k' == k) = true
  · rw [if_pos hk] at hl
    injection hl with h2
    exact h2.symm
  · rw [if_neg hk] at hl
    exact h k' v hl

theorem addProductCounts_zero (mc : MC) (provider product : String)
    (cfg : List (String × Int))
    (hm : manualCount (pdOf mc provider product) "full_movie" = .ok 0)
    (he : manualCount (pdOf mc provider product) "full_episode" = .ok 0)
    (hs : manualCount (pdOf mc provider product) "short_video" = .ok 0)
    (h : allZeroCfg cfg) :
    ∃ cfg', addProductCounts mc provider product cfg = .ok cfg' ∧ allZeroCfg cfg' := by
  unfold addProductCounts
  simp only [hm, he, hs, Bind.bind, Except.bind]
  by_cases hb : (provider == "others" && product == "twc") = true
  · rw [if_pos hb]
    exact ⟨_, rfl, allZero_setA _ (allZero_setA _ (allZero_setA _ h _) _) _⟩
  · rw [if_neg hb]
    exact ⟨_, rfl, allZero_setA _ (allZero_setA _ h _) _⟩

theorem addProviderCounts_zero (mc : MC) (provider : String) :
    ∀ (prods : List (String × List (String × String))) (cfg : List (String × Int)),
      (∀ pr ∈ prods,
        manualCount (pdOf mc provider pr.1) "full_movie" = .ok 0 ∧
        manualCount (pdOf mc provider pr.1) "full_episode" = .ok 0 ∧
        manualCount (pdOf mc provider pr.1) "short_video" = .ok 0) →
      allZeroCfg cfg →
      ∃ cfg', addProviderCounts mc provider prods cfg = .ok cfg' ∧ allZeroCfg cfg' := by
  intro prods
  induction prods with
  | nil => exact fun cfg _ h => ⟨cfg, rfl, h⟩
  | cons pr rest ih =>
      intro cfg hz h
      obtain ⟨h1, h2, h3⟩ := hz pr (List.mem_cons_self _ _)
      obtain ⟨cfg1, hc1, hz1⟩ := addProductCounts_zero mc provider pr.1 cfg h1 h2 h3 h
      obtain ⟨cfg2, hc2, hz2⟩ :=
        ih cfg1 (fun q hq => hz q (List.mem_cons_of_mem _ hq)) hz1
      refine ⟨cfg2, ?_, hz2⟩
      unfold addProviderCounts
      rw [hc1]
      simpa [Bind.bind, Except.bind] using hc2

theorem buildConfigManualAux_zero (mc : MC) :
    ∀ (rest : MC) (cfg : List (String × Int)),
      (∀ pp ∈ rest, ∀ pr ∈ pp.2,
        manualCount (pdOf mc pp.1 pr.1) "full_movie" = .ok 0 ∧
        manualCount (pdOf mc pp.1 pr.1) "full_episode" = .ok 0 ∧
        manualCount (pdOf mc pp.1 pr.1) "short_video" = .ok 0) →
      allZeroCfg cfg →
      ∃ cfg', buildConfigManualAux mc rest cfg = .ok cfg' ∧ allZeroCfg cfg' := by
  intro rest
  induction rest with
  | nil => exact fun cfg _ h => ⟨cfg, rfl, h⟩
  | cons pp rest2 ih =>
      intro cfg hz h
      obtain ⟨cfg1, hc1, hz1⟩ := addProviderCounts_zero mc pp.1 pp.2 cfg
        (fun pr hpr => hz pp (List.mem_cons_self _ _) pr hpr) h
      obtain ⟨cfg2, hc2, hz2⟩ :=
        ih cfg1 (fun q hq => hz q (List.mem_cons_of_mem _ hq)) hz1
      refine ⟨cfg2, ?_, hz2⟩
      unfold buildConfigManualAux
      rw [hc1]
      simpa [Bind.bind, Except.bind] using hc2

theorem processEntry_zero (env : Env) (cfg : List (String × Int))
    (provider folder : String) (srcRows : List Row) (pr vt : String) (st : PState)
    (hz : allZeroCfg cfg) :
    processEntry env cfg provider folder srcRows pr vt st = .ok st := by
  unfold processEntry
  by_cases hg : (vt == "Short Video" && !(provider == "others" && pr == "twc")) = true
  · rw [if_pos hg]
  · rw [if_neg hg]
    have hc : ((lookupA cfg (countKey (pyReplaceChar (pyLower vt) ' ' '_') provider pr)).getD 0
        == 0) = true := by
      rcases hl : lookupA cfg (countKey (pyReplaceChar (pyLower vt) ' ' '_') provider pr)
        with _ | v
      · simp
      · have := hz _ _ hl
        simp [this]
    rw [if_pos hc]

theorem processEntries_zero (env : Env) (cfg : List (String × Int))
    (provider folder : String) (srcRows : List Row)
    (entries : List (String × String)) (hz : allZeroCfg cfg) :
    ∀ st : PState, processEntries env cfg provider folder srcRows entries st = .ok st := by
  induction entries with
  | nil => intro st; rfl
  | cons e rest ih =>
      intro st
      unfold processEntries
      rw [processEntry_zero env cfg provider folder srcRows e.1 e.2 st hz]
      simpa [Bind.bind, Except.bind] using ih st

theorem processProvider_zero (env : Env) (cfg : List (String × Int)) (provider : String)
    (products : List String) (g : GenSt) (hz : allZeroCfg cfg)
    (hkn : provider = "others" ∨ provider = "warnerbros") :
    ∃ fo st, processProvider env cfg provider products g = .ok (fo, st) ∧
      st.out = [] ∧ createdFiles st.evs = [] ∧
      (fo = none ∨ fo = some (outputDir ++ "/" ++ provider)) := by
  have hpath : ∃ path, lookupA sourceCsvPaths provider = some path := by
    rcases hkn with h | h <;> subst h
    · exact ⟨_, rfl⟩
    · exact ⟨_, rfl⟩
  obtain ⟨path, hpath⟩ := hpath
  unfold processProvider
  unfold loadCsvRows
  rw [hpath]
  simp only [Bind.bind, Except.bind]
  rcases lookupA env.srcFiles path with _ | rows
  · exact ⟨none, _, rfl, rfl, rfl, Or.inl rfl⟩
  · rcases rows with _ | ⟨r0, rest2⟩
    · exact ⟨none, _, rfl, rfl, rfl, Or.inl rfl⟩
    · dsimp only
      rw [processEntries_zero env cfg provider (outputDir ++ "/" ++ provider) (r0 :: rest2)
        (entriesFor products) hz]
      refine ⟨some (outputDir ++ "/" ++ provider), _, rfl, rfl, rfl, Or.inr rfl⟩

theorem runProviders_zero (env : Env) (cfg : List (String × Int)) (hz : allZeroCfg cfg) :
    ∀ (provs : List (String × List String)) (g : GenSt) (acc : RunAcc),
      (∀ pp ∈ provs, pp.1 = "others" ∨ pp.1 = "warnerbros") →
      ∃ acc' g', runProviders env cfg provs g acc = .ok (acc', g') ∧
        createdFiles acc'.evs = createdFiles acc.evs ∧
        (∀ f ∈ acc'.folders, f ∈ acc.folders ∨
          ∃ pp ∈ provs, f = outputDir ++ "/" ++ pp.1) := by
  intro provs
  induction provs with
  | nil =>
      intro g acc _
      exact ⟨acc, g, rfl, rfl, fun f hf => Or.inl hf⟩
  | cons pp rest ih =>
      intro g acc hkn
      obtain ⟨fo, st, hpp, hout, hcf, hfo⟩ :=
        processProvider_zero env cfg pp.1 pp.2 g hz (hkn pp (List.mem_cons_self _ _))
      unfold runProviders
      rw [hpp]
      simp only [Bind.bind, Except.bind]
      rcases hfo with h0 | h0 <;> subst h0 <;> dsimp only
      · obtain ⟨acc', g', hrp, hcf2, hfold⟩ :=
          ih st.gen
            { evs := acc.evs ++ st.evs
            , tagged := acc.tagged ++ st.out.map (fun t => (pp.1, t))
            , created := acc.created ++ st.createdK.map (fun c => (pp.1, c))
            , folders := acc.folders ++ [] }
            (fun q hq => hkn q (List.mem_cons_of_mem _ hq))
        refine ⟨acc', g', hrp, ?_, ?_⟩
        · rw [hcf2]
          simp only [createdFiles_append, hcf]
          simp
        · intro f hf
          rcases hfold f hf with hin | ⟨q, hq, hfe⟩
          · simp only [List.append_nil] at hin
            exact Or.inl hin
          · exact Or.inr ⟨q, List.mem_cons_of_mem _ hq, hfe⟩
      · obtain ⟨acc', g', hrp, hcf2, hfold⟩ :=
          ih st.gen
            { evs := acc.evs ++ st.evs
            , tagged := acc.tagged ++ st.out.map (fun t => (pp.1, t))
            , created := acc.created ++ st.createdK.map (fun c => (pp.1, c))
            , folders := acc.folders ++ [outputDir ++ "/" ++ pp.1] }
            (fun q hq => hkn q (List.mem_cons_of_mem _ hq))
        refine ⟨acc', g', hrp, ?_, ?_⟩
        · rw [hcf2]
          simp only [createdFiles_append, hcf]
          simp
        · intro f hf
          rcases hfold f hf with hin | ⟨q, hq, hfe⟩
          · simp only [List.mem_append, List.mem_singleton] at hin
            rcases hin with hin | hin
            · exact Or.inl hin
            · exact Or.inr ⟨pp, List.mem_cons_self _ _, hin⟩
          · exact Or.inr ⟨q, List.mem_cons_of_mem _ hq, hfe⟩

theorem buildConfigManual_zero (mc : MC)
    (hz : ∀ pp ∈ mc, ∀ pr ∈ pp.2,
      manualCount (pdOf mc pp.1 pr.1) "full_movie" = .ok 0 ∧
      manualCount (pdOf mc pp.1 pr.1) "full_episode" = .ok 0 ∧
      manualCount (pdOf mc pp.1 pr.1) "short_video" = .ok 0) :
    ∃ cfg, buildConfigManual mc = .ok cfg ∧ allZeroCfg cfg := by
  have h0 : allZeroCfg [] := by
    intro k v h
    simp [lookupA_nil] at h
  exact buildConfigManualAux_zero mc mc [] hz h0

/-- C3 counterexample: an all-zero manual run against an output tree holding
a file from a prior run returns a success result with an archive path even
though this run wrote no files, refuting "failure exactly when no provider
produced any files in this run, regardless of files left by prior runs". -/
theorem c3_counterexample :
    runGeneration "manual" (some mcZ) envPre gW = .ok runZPre
    ∧ runZPre.result.1.isSome = true
    ∧ createdFiles runZPre.evs = []
    ∧ envPre.preFiles = ["GENERATED_PACKAGES/warnerbros/stale.csv"] :=
  ⟨by rfl, by rfl, by rfl, by rfl⟩

/-- C3 amended: for a manual run over known providers whose counts all
resolve to zero, provided no prior-run files remain under the touched
provider folders, `run_generation` returns a failure result with no archive
and writes no files; the archiving step's emptiness test inspects the
on-disk folder contents, so prior-run files under a touched folder instead
make the run succeed (see the counterexample). -/
theorem c3_allzero_clean_tree_fails (mc : MC) (env : Env) (g : GenSt)
    (hkn : ∀ pp ∈ mc, pp.1 = "others" ∨ pp.1 = "warnerbros")
    (hz : ∀ pp ∈ mc, ∀ pr ∈ pp.2,
      manualCount (pdOf mc pp.1 pr.1) "full_movie" = .ok 0 ∧
      manualCount (pdOf mc pp.1 pr.1) "full_episode" = .ok 0 ∧
      manualCount (pdOf mc pp.1 pr.1) "short_video" = .ok 0)
    (hpre : ∀ f ∈ env.preFiles, ∀ pp ∈ mc,
      strStarts (outputDir ++ "/" ++ pp.1 ++ "/") f = false) :
    ∃ out, runGeneration "manual" (some mc) env g = .ok out ∧
      out.result.1 = none ∧ createdFiles out.evs = [] := by
  rcases mc with _ | ⟨pp, mcRest⟩
  · exact ⟨_, rfl, rfl, rfl⟩
  · obtain ⟨cfg, hcfg, hzc⟩ := buildConfigManual_zero (pp :: mcRest) hz
    unfold runGeneration
    rw [if_neg (by decide), if_pos (by decide)]
    dsimp only
    rw [hcfg]
    simp only [Bind.bind, Except.bind]
    obtain ⟨acc', g', hrp, hcf2, hfold⟩ :=
      runProviders_zero env cfg hzc (provsFor "manual" (some (pp :: mcRest))) g emptyAcc
        (by
          intro qq hqq
          simp only [provsFor] at hqq
          rw [if_neg (by decide)] at hqq
          rcases List.mem_map.mp hqq with ⟨mcp, hmcp, hmcpe⟩
          rw [← hmcpe]
          exact hkn mcp hmcp)
    rw [hrp]
    simp only [Bind.bind, Except.bind]
    have hcempty : createdFiles acc'.evs = [] := by
      rw [hcf2]
      rfl
    have hact : acc'.folders.filter
        (fun f => listdirNonempty env (createdFiles acc'.evs) f) = [] := by
      rw [List.filter_eq_nil_iff]
      intro f hf
      rcases hfold f hf with hin | ⟨qq, hq, hfe⟩
      · simp [emptyAcc] at hin
      · subst hfe
        rw [hcempty]
        unfold listdirNonempty
        simp only [List.append_nil, Bool.not_eq_true]
        rw [List.any_eq_false]
        intro p hp
        simp only [provsFor] at hq
        rw [if_neg (by decide)] at hq
        rcases List.mem_map.mp hq with ⟨mcp, hmcp, hmcpe⟩
        have := hpre p hp mcp hmcp
        rw [← hmcpe]
        simp [this]
    refine ⟨archiveStep env acc' g', rfl, ?_, ?_⟩
    · simp only [archiveStep]
      rw [hact]
      simp
    · rw [(archiveStep_fields env acc' g').1]
      exact hcempty

theorem c3_allzero_clean_tree_fails_witness :
    (∀ pp ∈ mcZ, pp.1 = "others" ∨ pp.1 = "warnerbros")
    ∧ (∀ pp ∈ mcZ, ∀ pr ∈ pp.2,
        manualCount (pdOf mcZ pp.1 pr.1) "full_movie" = .ok 0 ∧
        manualCount (pdOf mcZ pp.1 pr.1) "full_episode" = .ok 0 ∧
        manualCount (pdOf mcZ pp.1 pr.1) "short_video" = .ok 0)
    ∧ (∀ f ∈ envW.preFiles, ∀ pp ∈ mcZ,
        strStarts (outputDir ++ "/" ++ pp.1 ++ "/") f = false)
    ∧ (∃ out, runGeneration "manual" (some mcZ) envW gW = .ok out ∧
        out.result.1 = none ∧ createdFiles out.evs = []) := by
  refine ⟨?_, ?_, ?_, ?_⟩
  · intro pp hpp
    simp only [mcZ, List.mem_singleton] at hpp
    subst hpp
    exact Or.inr rfl
  · intro pp hpp
    simp only [mcZ, List.mem_singleton] at hpp
    subst hpp
    intro pr hpr
    simp only [List.mem_singleton] at hpr
    subst hpr
    exact ⟨by rfl, by rfl, by rfl⟩
  · intro f hf
    simp [envW] at hf
  · exact c3_allzero_clean_tree_fails mcZ envW gW
      (by
        intro pp hpp
        simp only [mcZ, List.mem_singleton] at hpp
        subst hpp
        exact Or.inr rfl)
      (by
        intro pp hpp
        simp only [mcZ, List.mem_singleton] at hpp
        subst hpp
        intro pr hpr
        simp only [List.mem_singleton] at hpr
        subst hpr
        exact ⟨by rfl, by rfl, by rfl⟩)
      (by
        intro f hf
        simp [envW] at hf)


theorem processEntry_no_error (env : Env) (cfg : List (String × Int))
    (provider folder : String) (srcRows : List Row) (pr vt : String) (st : PState)
    (hkeys : ∀ r ∈ srcRows, rhas r "Video Type" = true) :
    ∃ st', processEntry env cfg provider folder srcRows pr vt st = .ok st' := by
  unfold processEntry
  by_cases hg : (vt == "Short Video" && !(provider == "others" && pr == "twc")) = true
  · rw [if_pos hg]; exact ⟨st, rfl⟩
  · rw [if_neg hg]
    by_cases hc : (((lookupA cfg (countKey (pyReplaceChar (pyLower vt) ' ' '_') provider pr)).getD
        0) == 0) = true
    · rw [if_pos hc]; exact ⟨st, rfl⟩
    · rw [if_neg hc]
      obtain ⟨o, ho⟩ := findTemplate_no_error srcRows vt hkeys
      rw [ho]
      simp only [Bind.bind, Except.bind]
      rcases o with _ | tmpl
      · exact ⟨_, rfl⟩
      · exact ⟨_, rfl⟩

theorem processEntries_no_error (env : Env) (cfg : List (String × Int))
    (provider folder : String) (srcRows : List Row)
    (entries : List (String × String))
    (hkeys : ∀ r ∈ srcRows, rhas r "Video Type" = true) :
    ∀ st : PState, ∃ st', processEntries env cfg provider folder srcRows entries st = .ok st' := by
  induction entries with
  | nil => exact fun st => ⟨st, rfl⟩
  | cons e rest ih =>
      intro st
      obtain ⟨st1, h1⟩ := processEntry_no_error env cfg provider folder srcRows e.1 e.2 st hkeys
      obtain ⟨st2, h2⟩ := ih st1
      refine ⟨st2, ?_⟩
      unfold processEntries
      rw [h1]
      simpa [Bind.bind, Except.bind] using h2

theorem processEntry_movie_produces (env : Env) (cfg : List (String × Int))
    (provider folder : String) (srcRows : List Row) (pr : String) (st : PState) (tM : Row)
    (hcount : (lookupA cfg (countKey "full_movie" provider pr)).getD 0 = 1)
    (hM : findTemplate srcRows "Full Movie" = .ok (some tM)) :
    ∃ st', processEntry env cfg provider folder srcRows pr "Full Movie" st = .ok st' ∧
      st'.out ≠ [] := by
  unfold processEntry
  rw [if_neg (by simp)]
  dsimp only
  have hk : pyReplaceChar (pyLower "Full Movie") ' ' '_' = "full_movie" := by decide
  rw [hk, hcount]
  rw [if_neg (by decide)]
  rw [hM]
  simp only [Bind.bind, Except.bind]
  have hprep : episodePrep env provider folder pr "Full Movie" st = (none, st) := by
    simp [episodePrep]
  rw [hprep]
  obtain ⟨ext, rows, g2, heq, hext, hrows, hemp⟩ :=
    genInstances_spec env.dateStr folder pr "Full Movie" tM (none, st).1
      (List.range ((1 : Int)).toNat) (none, st).2
  refine ⟨_, rfl, ?_⟩
  rw [heq]
  simp only []
  intro hcon
  rcases List.append_eq_nil.mp hcon with ⟨h1, h2⟩
  have := hemp.mp h2
  simp at this

theorem createdFiles_shape (evs : List FSEvent) (P : String → Prop)
    (hc : ∀ e ∈ evs, ∀ src dst, e = FSEvent.copyFile src dst → P dst)
    (hw : ∀ e ∈ evs, ∀ pa hs rws, e = FSEvent.writeCsv pa hs rws → P pa) :
    ∀ f ∈ createdFiles evs, P f := by
  induction evs with
  | nil => intro f hf; simp [createdFiles] at hf
  | cons e t ih =>
      intro f hf
      have ihr := ih (fun e2 he2 => hc e2 (List.mem_cons_of_mem _ he2))
        (fun e2 he2 => hw e2 (List.mem_cons_of_mem _ he2))
      cases e with
      | copyFile src dst =>
          simp only [createdFiles, List.foldr_cons] at hf
          rcases List.mem_cons.mp hf with hf1 | hf2
          · subst hf1
            exact hc _ (List.mem_cons_self _ _) src f rfl
          · exact ihr f hf2
      | writeCsv pa hs rws =>
          simp only [createdFiles, List.foldr_cons] at hf
          rcases List.mem_cons.mp hf with hf1 | hf2
          · subst hf1
            exact hw _ (List.mem_cons_self _ _) f hs rws rfl
          · exact ihr f hf2
      | mkdir pa => exact ihr f hf
      | log m => exact ihr f hf

theorem writeCsv_mem_createdFiles (evs : List FSEvent) (pa : String) (hs : List String)
    (rws : List Row) (h : FSEvent.writeCsv pa hs rws ∈ evs) : pa ∈ createdFiles evs := by
  induction evs with
  | nil => simp at h
  | cons e t ih =>
      rcases List.mem_cons.mp h with h1 | h2
      · rw [← h1]
        simp [createdFiles]
      · have := ih h2
        cases e <;> simp [createdFiles, List.foldr_cons] at this ⊢ <;>
          first
            | exact this
            | exact Or.inr this
theorem processProvider_good (env : Env) (cfg : List (String × Int)) (provider : String)
    (g : GenSt) (path : String) (r0 : Row) (rest2 : List Row) (pr0 : String)
    (prodRest : List String) (tM : Row)
    (hpath : lookupA sourceCsvPaths provider = some path)
    (hfile : lookupA env.srcFiles path = some (r0 :: rest2))
    (hkeys : ∀ r ∈ r0 :: rest2, rhas r "Video Type" = true)
    (hcount : (lookupA cfg (countKey "full_movie" provider pr0)).getD 0 = 1)
    (hM : findTemplate (r0 :: rest2) "Full Movie" = .ok (some tM)) :
    ∃ st, processProvider env cfg provider (pr0 :: prodRest) g =
        .ok (some (outputDir ++ "/" ++ provider), st) ∧ st.out ≠ [] := by
  unfold processProvider
  unfold loadCsvRows
  rw [hpath]
  simp only [Bind.bind, Except.bind]
  rw [hfile]
  dsimp only
  obtain ⟨st1, he1, hne1⟩ := processEntry_movie_produces env cfg provider
    (outputDir ++ "/" ++ provider) (r0 :: rest2) pr0
    { initPState g with evs := [FSEvent.mkdir (outputDir ++ "/" ++ provider)] } tM hcount hM
  rw [show entriesFor (pr0 :: prodRest) =
      (pr0, "Full Movie") :: ((pr0, "Full Episode") :: (pr0, "Short Video") ::
        entriesFor prodRest) from rfl]
  unfold processEntries
  rw [he1]
  simp only [Bind.bind, Except.bind]
  obtain ⟨st2, he2⟩ := processEntries_no_error env cfg provider (outputDir ++ "/" ++ provider)
    (r0 :: rest2) ((pr0, "Full Episode") :: (pr0, "Short Video") :: entriesFor prodRest)
    hkeys st1
  rw [he2]
  simp only [Bind.bind, Except.bind]
  obtain ⟨ext, rows2, crt, hev, hout, hck, hsm, hnd, hcls, hfil, hrows⟩ :=
    processEntries_spec env cfg provider (outputDir ++ "/" ++ provider) (r0 :: rest2)
      ((pr0, "Full Episode") :: (pr0, "Short Video") :: entriesFor prodRest) st1 st2 he2
  have hne2 : st2.out ≠ [] := by
    rw [hout]
    intro hcon
    exact hne1 (List.append_eq_nil.mp hcon).1
  have hoe : st2.out.isEmpty = false := by
    rcases ho : st2.out with _ | _
    · exact absurd ho hne2
    · rfl
  rw [hoe]
  simp only [Bool.false_eq_true, if_false]
  exact ⟨_, rfl, hne2⟩
/-- C8: with one known provider's source table missing or empty, the failure is
scoped to that provider — the skip is logged with the matching message, the
provider contributes no records and no files under its output folder, and the
run continues and succeeds for the remaining provider. -/
theorem c8_missing_source_scoped (p q : String) (env : Env) (g : GenSt)
    (r0 : Row) (rest2 : List Row)
    (hpq : (p = "others" ∧ q = "warnerbros") ∨ (p = "warnerbros" ∧ q = "others"))
    (hskip : lookupA env.srcFiles ((lookupA sourceCsvPaths p).getD "") = none ∨
      lookupA env.srcFiles ((lookupA sourceCsvPaths p).getD "") = some [])
    (hq : lookupA env.srcFiles ((lookupA sourceCsvPaths q).getD "") = some (r0 :: rest2))
    (hkeys : ∀ r ∈ r0 :: rest2, rhas r "Video Type" = true)
    (hM : ∃ tM, findTemplate (r0 :: rest2) "Full Movie" = .ok (some tM)) :
    ∃ out, runGeneration "default" none env g = .ok out
      ∧ (lookupA env.srcFiles ((lookupA sourceCsvPaths p).getD "") = none →
          FSEvent.log ("Error: Source CSV not found for " ++ p ++ ". Skipping.") ∈ out.evs)
      ∧ (lookupA env.srcFiles ((lookupA sourceCsvPaths p).getD "") = some [] →
          FSEvent.log ("Error: Source CSV is empty for " ++ p ++ ". Skipping.") ∈ out.evs)
      ∧ (∀ t ∈ out.tagged, t.1 ≠ p)
      ∧ (∀ f ∈ createdFiles out.evs, strStarts (outputDir ++ "/" ++ p ++ "/") f = false)
      ∧ out.result.1.isSome = true := by
  obtain ⟨tM, hMt⟩ := hM
  unfold runGeneration
  rw [if_pos (by decide)]
  rcases hpq with ⟨hp, hqq⟩ | ⟨hp, hqq⟩ <;> subst hp <;> subst hqq
  · -- others missing, warnerbros good
    obtain ⟨msg, h1, hmsgN, hmsgE⟩ :
        ∃ msg, processProvider env buildConfigDefault "others"
            ["localnow", "twc", "hbcugo"] g =
            .ok (none, { initPState g with evs := [FSEvent.log msg] })
          ∧ (lookupA env.srcFiles ((lookupA sourceCsvPaths "others").getD "") = none →
              msg = "Error: Source CSV not found for " ++ "others" ++ ". Skipping.")
          ∧ (lookupA env.srcFiles ((lookupA sourceCsvPaths "others").getD "") = some [] →
              msg = "Error: Source CSV is empty for " ++ "others" ++ ". Skipping.") := by
      rcases hskip with hmm | hmm
      · refine ⟨_, processProvider_missing env buildConfigDefault "others"
          ["localnow", "twc", "hbcugo"] g ?_, fun _ => rfl, fun hc => ?_⟩
        · unfold loadCsvRows
          rw [show lookupA sourceCsvPaths "others" =
            some "source_data/others-test-package.csv" from rfl]
          exact congrArg Except.ok hmm
        · exact absurd (hmm.symm.trans hc) (by simp)
      · refine ⟨_, processProvider_emptyTable env buildConfigDefault "others"
          ["localnow", "twc", "hbcugo"] g ?_, fun hc => ?_, fun _ => rfl⟩
        · unfold loadCsvRows
          rw [show lookupA sourceCsvPaths "others" =
            some "source_data/others-test-package.csv" from rfl]
          exact congrArg Except.ok hmm
        · exact absurd (hmm.symm.trans hc) (by simp)
    rw [show provsFor "default" none =
      [("others", ["localnow", "twc", "hbcugo"]), ("warnerbros", ["localnow"])] from rfl]
    unfold runProviders
    rw [h1]
    simp only [Bind.bind, Except.bind]
    obtain ⟨stw, hw, hnew⟩ := processProvider_good env buildConfigDefault "warnerbros" g
      "source_data/warnerbros-test-package.csv" r0 rest2 "localnow" [] tM rfl hq hkeys
      (by decide) hMt
    rw [show (initPState g).gen = g from rfl]
    unfold runProviders
    rw [hw]
    simp only [Bind.bind, Except.bind]
    unfold runProviders
    simp only [Bind.bind, Except.bind]
    obtain ⟨hnd1, hfil1, hlink1, hcls1, hwe1, hwn1⟩ :=
      processProvider_spec env buildConfigDefault "warnerbros" ["localnow"] g
        (some (outputDir ++ "/" ++ "warnerbros")) stw hw
    obtain ⟨n, rws, rr0, rrest, hloadr, hwmem⟩ := hwn1 hnew
    refine ⟨_, rfl, ?_, ?_, ?_, ?_, ?_⟩
    · intro hn
      rw [(archiveStep_fields _ _ _).1, ← hmsgN hn]
      simp [emptyAcc, initPState]
    · intro he
      rw [(archiveStep_fields _ _ _).1, ← hmsgE he]
      simp [emptyAcc, initPState]
    · intro t ht
      rw [(archiveStep_fields _ _ _).2.1] at ht
      simp only [emptyAcc, initPState, List.map_nil, List.nil_append, List.append_nil] at ht
      obtain ⟨x, hx, hxe⟩ := List.mem_map.mp ht
      rw [← hxe]
      intro hc
      simp at hc
    · intro f hf
      rw [(archiveStep_fields _ _ _).1] at hf
      simp only [emptyAcc, initPState] at hf
      have hsplit : ∀ f2 ∈ createdFiles stw.evs,
          strStarts (outputDir ++ "/" ++ "others" ++ "/") f2 = false := by
        apply createdFiles_shape
        · intro e he src dst hdst
          rcases hcls1 e he with ⟨m0, hbad⟩ | hbad | ⟨src2, n2, hbad⟩ |
              ⟨n2, rws2, r02, rest02, hl2, hbad, hk2⟩ <;> rw [hbad] at hdst
          · simp at hdst
          · simp at hdst
          · injection hdst with h1 h2
            rw [← h2]
            exact strStarts_sep _ ((outputDir ++ "/" ++ "warnerbros") ++ "/") _
              (prefix_data_append _ _) (by decide) (by decide)
          · simp at hdst
        · intro e he pa hs rws2 hpa
          rcases hcls1 e he with ⟨m0, hbad⟩ | hbad | ⟨src2, n2, hbad⟩ |
              ⟨n2, rws3, r02, rest02, hl2, hbad, hk2⟩ <;> rw [hbad] at hpa
          · simp at hpa
          · simp at hpa
          · simp at hpa
          · injection hpa with h1 h2
            rw [← h1]
            exact strStarts_sep _ ((outputDir ++ "/" ++ "warnerbros") ++ "/") _
              (prefix_data_append _ _) (by decide) (by decide)
      have hcf : createdFiles
          ((([] : List FSEvent) ++
            [FSEvent.log msg]) ++
            stw.evs) = createdFiles stw.evs := by
        rw [createdFiles_append]
        rfl
      rw [hcf] at hf
      exact hsplit f hf
    · simp only [archiveStep]
      have hmem2 : ((outputDir ++ "/" ++ "warnerbros") ++ "/" ++ n) ∈
          createdFiles
            ([FSEvent.log msg] ++
            stw.evs) := by
        rw [createdFiles_append]
        apply List.mem_append.mpr
        right
        exact writeCsv_mem_createdFiles stw.evs _ _ _ hwmem
      have hld : listdirNonempty env
          (createdFiles
            ([FSEvent.log msg] ++
            stw.evs)) (outputDir ++ "/" ++ "warnerbros") = true := by
        unfold listdirNonempty
        rw [List.any_eq_true]
        refine ⟨_, List.mem_append.mpr (Or.inr hmem2), ?_⟩
        exact (strStarts_iff _ _).mpr (prefix_data_append _ _)
      have hactive : (((([] : List String) ++ []) ++ [outputDir ++ "/" ++ "warnerbros"]).filter
          (fun f => listdirNonempty env
            (createdFiles ((([] : List FSEvent) ++
              [FSEvent.log msg]) ++
              stw.evs)) f)).isEmpty = false := by
        simp only [List.nil_append, List.filter_cons, List.filter_nil, hld]
        rfl
      simp only [emptyAcc, initPState]
      rw [hactive]
      simp
  · -- warnerbros missing, others good
    obtain ⟨sto, hwok, hneo⟩ := processProvider_good env buildConfigDefault "others" g
      "source_data/others-test-package.csv" r0 rest2 "localnow" ["twc", "hbcugo"] tM rfl hq
      hkeys (by decide) hMt
    rw [show provsFor "default" none =
      [("others", ["localnow", "twc", "hbcugo"]), ("warnerbros", ["localnow"])] from rfl]
    unfold runProviders
    rw [hwok]
    simp only [Bind.bind, Except.bind]
    obtain ⟨msg, h1, hmsgN, hmsgE⟩ :
        ∃ msg, processProvider env buildConfigDefault "warnerbros" ["localnow"] sto.gen =
            .ok (none, { initPState sto.gen with evs := [FSEvent.log msg] })
          ∧ (lookupA env.srcFiles ((lookupA sourceCsvPaths "warnerbros").getD "") = none →
              msg = "Error: Source CSV not found for " ++ "warnerbros" ++ ". Skipping.")
          ∧ (lookupA env.srcFiles ((lookupA sourceCsvPaths "warnerbros").getD "") = some [] →
              msg = "Error: Source CSV is empty for " ++ "warnerbros" ++ ". Skipping.") := by
      rcases hskip with hmm | hmm
      · refine ⟨_, processProvider_missing env buildConfigDefault "warnerbros"
          ["localnow"] sto.gen ?_, fun _ => rfl, fun hc => ?_⟩
        · unfold loadCsvRows
          rw [show lookupA sourceCsvPaths "warnerbros" =
            some "source_data/warnerbros-test-package.csv" from rfl]
          exact congrArg Except.ok hmm
        · exact absurd (hmm.symm.trans hc) (by simp)
      · refine ⟨_, processProvider_emptyTable env buildConfigDefault "warnerbros"
          ["localnow"] sto.gen ?_, fun hc => ?_, fun _ => rfl⟩
        · unfold loadCsvRows
          rw [show lookupA sourceCsvPaths "warnerbros" =
            some "source_data/warnerbros-test-package.csv" from rfl]
          exact congrArg Except.ok hmm
        · exact absurd (hmm.symm.trans hc) (by simp)
    unfold runProviders
    rw [h1]
    simp only [Bind.bind, Except.bind]
    unfold runProviders
    simp only [Bind.bind, Except.bind]
    obtain ⟨hnd1, hfil1, hlink1, hcls1, hwe1, hwn1⟩ :=
      processProvider_spec env buildConfigDefault "others" ["localnow", "twc", "hbcugo"] g
        (some (outputDir ++ "/" ++ "others")) sto hwok
    obtain ⟨n, rws, rr0, rrest, hloadr, hwmem⟩ := hwn1 hneo
    refine ⟨_, rfl, ?_, ?_, ?_, ?_, ?_⟩
    · intro hn
      rw [(archiveStep_fields _ _ _).1, ← hmsgN hn]
      simp [emptyAcc, initPState]
    · intro he
      rw [(archiveStep_fields _ _ _).1, ← hmsgE he]
      simp [emptyAcc, initPState]
    · intro t ht
      rw [(archiveStep_fields _ _ _).2.1] at ht
      simp only [emptyAcc, initPState, List.map_nil, List.nil_append, List.append_nil] at ht
      obtain ⟨x, hx, hxe⟩ := List.mem_map.mp ht
      rw [← hxe]
      intro hc
      simp at hc
    · intro f hf
      rw [(archiveStep_fields _ _ _).1] at hf
      simp only [emptyAcc, initPState] at hf
      have hsplit : ∀ f2 ∈ createdFiles sto.evs,
          strStarts (outputDir ++ "/" ++ "warnerbros" ++ "/") f2 = false := by
        apply createdFiles_shape
        · intro e he src dst hdst
          rcases hcls1 e he with ⟨m0, hbad⟩ | hbad | ⟨src2, n2, hbad⟩ |
              ⟨n2, rws2, r02, rest02, hl2, hbad, hk2⟩ <;> rw [hbad] at hdst
          · simp at hdst
          · simp at hdst
          · injection hdst with h1 h2
            rw [← h2]
            exact strStarts_sep _ ((outputDir ++ "/" ++ "others") ++ "/") _
              (prefix_data_append _ _) (by decide) (by decide)
          · simp at hdst
        · intro e he pa hs rws2 hpa
          rcases hcls1 e he with ⟨m0, hbad⟩ | hbad | ⟨src2, n2, hbad⟩ |
              ⟨n2, rws3, r02, rest02, hl2, hbad, hk2⟩ <;> rw [hbad] at hpa
          · simp at hpa
          · simp at hpa
          · simp at hpa
          · injection hpa with h1 h2
            rw [← h1]
            exact strStarts_sep _ ((outputDir ++ "/" ++ "others") ++ "/") _
              (prefix_data_append _ _) (by decide) (by decide)
      have hcf : createdFiles
          ((([] : List FSEvent) ++ sto.evs) ++
            [FSEvent.log msg]) =
          createdFiles sto.evs := by
        rw [createdFiles_append]
        simp [createdFiles]
      rw [hcf] at hf
      exact hsplit f hf
    · simp only [archiveStep]
      have hmem2 : ((outputDir ++ "/" ++ "others") ++ "/" ++ n) ∈
          createdFiles (sto.evs ++
            [FSEvent.log msg]) := by
        rw [createdFiles_append]
        apply List.mem_append.mpr
        left
        exact writeCsv_mem_createdFiles sto.evs _ _ _ hwmem
      have hld : listdirNonempty env
          (createdFiles (sto.evs ++
            [FSEvent.log msg]))
          (outputDir ++ "/" ++ "others") = true := by
        unfold listdirNonempty
        rw [List.any_eq_true]
        refine ⟨_, List.mem_append.mpr (Or.inr hmem2), ?_⟩
        exact (strStarts_iff _ _).mpr (prefix_data_append _ _)
      have hactive : (((([] : List String) ++ [outputDir ++ "/" ++ "others"]) ++ []).filter
          (fun f => listdirNonempty env
            (createdFiles ((([] : List FSEvent) ++ sto.evs) ++
              [FSEvent.log msg]))
            f)).isEmpty = false := by
        simp only [List.nil_append, List.append_nil, List.filter_cons, List.filter_nil, hld]
        rfl
      simp only [emptyAcc, initPState]
      rw [hactive]
      simp
theorem c8_missing_source_scoped_witness :
    ∃ out, runGeneration "default" none envMissingW gW = .ok out
      ∧ (lookupA envMissingW.srcFiles ((lookupA sourceCsvPaths "others").getD "") = none →
          FSEvent.log ("Error: Source CSV not found for " ++ "others" ++ ". Skipping.") ∈ out.evs)
      ∧ (lookupA envMissingW.srcFiles ((lookupA sourceCsvPaths "others").getD "") = some [] →
          FSEvent.log ("Error: Source CSV is empty for " ++ "others" ++ ". Skipping.") ∈ out.evs)
      ∧ (∀ t ∈ out.tagged, t.1 ≠ "others")
      ∧ (∀ f ∈ createdFiles out.evs, strStarts (outputDir ++ "/" ++ "others" ++ "/") f = false)
      ∧ out.result.1.isSome = true :=
  c8_missing_source_scoped "others" "warnerbros" envMissingW gW rowMovieW [rowEpisodeW]
    (Or.inl ⟨rfl, rfl⟩) (Or.inl (by rfl)) (by rfl) (by decide) ⟨rowMovieW, by rfl⟩
theorem lookupP_nil {α : Type} (k : String × String) : lookupP ([] : List ((String × String) × α)) k = none := rfl

theorem lookupP_setP_eq {α : Type} (t : List ((String × String) × α)) (k : String × String) (v : α) :
    lookupP (setP t k v) k = some v := by
  induction t with
  | nil => simp [setP, lookupP, List.find?]
  | cons p t ih =>
      by_cases h : (p.1 == k) = true
      · simp [setP, h, lookupP, List.find?]
      · rw [Bool.not_eq_true] at h
        simp only [setP, h, Bool.false_eq_true, if_false]
        simp only [lookupP, List.find?] at ih ⊢
        rw [h]
        exact ih

theorem lookupP_setP_ne {α : Type} (t : List ((String × String) × α)) (k k2 : String × String)
    (v : α) (h : k ≠ k2) : lookupP (setP t k v) k2 = lookupP t k2 := by
  have hb : (k == k2) = false := beq_eq_false_iff_ne.mpr h
  induction t with
  | nil => simp [setP, lookupP, List.find?, hb]
  | cons p t ih =>
      by_cases hp : (p.1 == k) = true
      · have hpk : p.1 = k := beq_iff_eq.mp hp
        simp only [setP, hp, if_true, lookupP, List.find?, hpk, hb, beq_self_eq_true]
      · rw [Bool.not_eq_true] at hp
        simp only [setP, hp, Bool.false_eq_true, if_false]
        simp only [lookupP, List.find?] at ih ⊢
        cases hc : (p.1 == k2) <;> simp only [hc] at ih ⊢
        exact ih

theorem tallyRows_cons (provider : String) (r : Row) (rest : List Row)
    (t : List ((String × String) × FileCounts)) :
    tallyRows provider (r :: rest) t = tallyRows provider rest (bumpRow provider r t) := rfl

theorem tallyRows_other (provider : String) (rows : List Row) (k : String × String)
    (hk : k.1 ≠ provider) :
    ∀ t, lookupP (tallyRows provider rows t) k = lookupP t k := by
  induction rows with
  | nil => intro t; rfl
  | cons r rest ih =>
      intro t
      rw [tallyRows_cons, ih]
      show lookupP (setP t (provider, stripVt r) _ ) k = lookupP t k
      exact lookupP_setP_ne _ _ _ _ (fun he => hk (by rw [← he]))
theorem bumpRow_lookup_eq (provider : String) (r : Row)
    (t : List ((String × String) × FileCounts)) :
    lookupP (bumpRow provider r t) (provider, stripVt r) = some
      { mp4 := ((lookupP t (provider, stripVt r)).getD zeroCounts).mp4 + 1
      , landscape := ((lookupP t (provider, stripVt r)).getD zeroCounts).landscape + 1
      , portrait := ((lookupP t (provider, stripVt r)).getD zeroCounts).portrait + 1
      , series := ((lookupP t (provider, stripVt r)).getD zeroCounts).series +
          (if pyLower (stripVt r) == "full episode" then 1 else 0)
      , season := ((lookupP t (provider, stripVt r)).getD zeroCounts).season +
          (if pyLower (stripVt r) == "full episode" then 1 else 0) } := by
  simp only [bumpRow]
  exact lookupP_setP_eq ..

theorem bumpRow_lookup_ne (provider : String) (r : Row) (k : String × String)
    (t : List ((String × String) × FileCounts)) (h : (provider, stripVt r) ≠ k) :
    lookupP (bumpRow provider r t) k = lookupP t k := by
  simp only [bumpRow]
  exact lookupP_setP_ne _ _ _ _ h

theorem tallyRows_count (provider vt : String) :
    ∀ (rows : List Row) (t : List ((String × String) × FileCounts)),
    (lookupP (tallyRows provider rows t) (provider, vt)).getD zeroCounts =
      { mp4 := ((lookupP t (provider, vt)).getD zeroCounts).mp4 +
          (rows.filter (fun r => stripVt r == vt)).length
      , landscape := ((lookupP t (provider, vt)).getD zeroCounts).landscape +
          (rows.filter (fun r => stripVt r == vt)).length
      , portrait := ((lookupP t (provider, vt)).getD zeroCounts).portrait +
          (rows.filter (fun r => stripVt r == vt)).length
      , series := ((lookupP t (provider, vt)).getD zeroCounts).series +
          (if pyLower vt == "full episode"
            then (rows.filter (fun r => stripVt r == vt)).length else 0)
      , season := ((lookupP t (provider, vt)).getD zeroCounts).season +
          (if pyLower vt == "full episode"
            then (rows.filter (fun r => stripVt r == vt)).length else 0) } := by
  intro rows
  induction rows with
  | nil =>
      intro t
      simp [tallyRows]
  | cons r rest ih =>
      intro t
      rw [tallyRows_cons]
      rw [ih (bumpRow provider r t)]
      by_cases hsv : stripVt r = vt
      · have hb : (stripVt r == vt) = true := beq_iff_eq.mpr hsv
        have hk2 := bumpRow_lookup_eq provider r t
        rw [hsv] at hk2
        rw [hk2]
        simp only [List.filter_cons, hb, if_true, List.length_cons, Option.getD_some]
        by_cases hfe : (pyLower vt == "full episode") = true
        · simp only [hfe, if_true, FileCounts.mk.injEq]
          refine ⟨?_, ?_, ?_, ?_, ?_⟩ <;> omega
        · rw [Bool.not_eq_true] at hfe
          simp only [hfe, Bool.false_eq_true, if_false, FileCounts.mk.injEq]
          exact ⟨by omega, by omega, by omega, trivial, trivial⟩
      · have hb : (stripVt r == vt) = false := beq_eq_false_iff_ne.mpr hsv
        have hk2 := bumpRow_lookup_ne provider r (provider, vt) t
          (fun he => hsv (congrArg Prod.snd he))
        rw [hk2]
        simp only [List.filter_cons, hb, Bool.false_eq_true, if_false]

theorem maxByMtime_spec (l : List (String × Nat × List Row)) (f : String × Nat × List Row)
    (h : maxByMtime l = some f) : f ∈ l ∧ ∀ x ∈ l, x.2.1 ≤ f.2.1 := by
  have key : ∀ (rest : List (String × Nat × List Row)) (best : String × Nat × List Row),
      (rest.foldl (fun best x => if best.2.1 < x.2.1 then x else best) best = best ∨
        rest.foldl (fun best x => if best.2.1 < x.2.1 then x else best) best ∈ rest) ∧
      best.2.1 ≤ (rest.foldl (fun best x => if best.2.1 < x.2.1 then x else best) best).2.1 ∧
      ∀ x ∈ rest, x.2.1 ≤ (rest.foldl (fun best x => if best.2.1 < x.2.1 then x else best) best).2.1 := by
    intro rest
    induction rest with
    | nil => exact fun best => ⟨Or.inl rfl, Nat.le_refl _, by intro x hx; cases hx⟩
    | cons a rest2 ih =>
        intro best
        rw [List.foldl_cons]
        obtain ⟨hmem, hle, hall⟩ := ih (if best.2.1 < a.2.1 then a else best)
        have hba : best.2.1 ≤ (if best.2.1 < a.2.1 then a else best).2.1 := by
          by_cases hc : best.2.1 < a.2.1
          · rw [if_pos hc]; exact Nat.le_of_lt hc
          · rw [if_neg hc]
        have haa : a.2.1 ≤ (if best.2.1 < a.2.1 then a else best).2.1 := by
          by_cases hc : best.2.1 < a.2.1
          · rw [if_pos hc]
          · rw [if_neg hc]; exact Nat.le_of_not_lt hc
        refine ⟨?_, Nat.le_trans hba hle, ?_⟩
        · rcases hmem with hm | hm
          · rw [hm]
            by_cases hc : best.2.1 < a.2.1
            · rw [if_pos hc]; exact Or.inr (List.mem_cons_self a rest2)
            · rw [if_neg hc]; exact Or.inl rfl
          · exact Or.inr (List.mem_cons_of_mem a hm)
        · intro x hx
          rcases List.mem_cons.mp hx with hx | hx
          · rw [hx]; exact Nat.le_trans haa hle
          · exact hall x hx
  match l, h with
  | a :: rest, h =>
      simp only [maxByMtime] at h
      injection h with h
      obtain ⟨hmem, hle, hall⟩ := key rest a
      rw [h] at hmem hle hall
      refine ⟨?_, ?_⟩
      · rcases hmem with hm | hm
        · rw [hm]; exact List.mem_cons_self a rest
        · exact List.mem_cons_of_mem a hm
      · intro x hx
        rcases List.mem_cons.mp hx with hx | hx
        · rw [hx]; exact hle
        · exact hall x hx
/-- C9: in the recomputed summary, the (provider, content-type) file tally
counts one video, one landscape and one portrait per re-read record of that
content type, plus one series and one season count per such record exactly
when the content type is `full episode` case-insensitively — once per episode
record, not once per unique series; and the re-read records are those of the
most-recently-modified matching output file of the provider. -/
theorem c9_summary_tally_per_record (fs : OutFS) (p vt : String)
    (hp : p = "others" ∨ p = "warnerbros") :
    (lookupP (getSummaryData fs).2 (p, vt)).getD zeroCounts =
      { mp4 := ((selectedRows fs p).filter (fun r => stripVt r == vt)).length
      , landscape := ((selectedRows fs p).filter (fun r => stripVt r == vt)).length
      , portrait := ((selectedRows fs p).filter (fun r => stripVt r == vt)).length
      , series := if pyLower vt == "full episode"
          then ((selectedRows fs p).filter (fun r => stripVt r == vt)).length else 0
      , season := if pyLower vt == "full episode"
          then ((selectedRows fs p).filter (fun r => stripVt r == vt)).length else 0 }
    ∧ (∀ f, maxByMtime (fs.filter (fun x => globMatch p x.1)) = some f →
        f ∈ fs ∧ globMatch p f.1 = true ∧
        (∀ x ∈ fs, globMatch p x.1 = true → x.2.1 ≤ f.2.1) ∧
        selectedRows fs p = f.2.2) := by
  constructor
  · rcases hp with hp | hp <;> subst hp
    · show (lookupP (fileTableOf fs) ("others", vt)).getD zeroCounts = _
      rw [fileTableOf]
      rw [tallyRows_other "warnerbros" (selectedRows fs "warnerbros") ("others", vt)
        (show ("others" : String) ≠ "warnerbros" by decide)
        (tallyRows "others" (selectedRows fs "others") [])]
      rw [tallyRows_count "others" vt (selectedRows fs "others") []]
      simp [lookupP, zeroCounts]
    · show (lookupP (fileTableOf fs) ("warnerbros", vt)).getD zeroCounts = _
      rw [fileTableOf]
      rw [tallyRows_count "warnerbros" vt (selectedRows fs "warnerbros")
        (tallyRows "others" (selectedRows fs "others") [])]
      rw [tallyRows_other "others" (selectedRows fs "others") ("warnerbros", vt)
        (show ("warnerbros" : String) ≠ "others" by decide) []]
      simp [lookupP, zeroCounts]
  · intro f hf
    obtain ⟨hmem, hbound⟩ := maxByMtime_spec _ f hf
    have hf2 := List.mem_filter.mp hmem
    refine ⟨hf2.1, hf2.2, ?_, ?_⟩
    · intro x hx hgx
      exact hbound x (List.mem_filter.mpr ⟨hx, hgx⟩)
    · unfold selectedRows
      rw [hf]
theorem c9_summary_tally_per_record_witness :
    (lookupP (getSummaryData fsS).2 ("others", "Full Episode")).getD zeroCounts =
      { mp4 := ((selectedRows fsS "others").filter
          (fun r => stripVt r == "Full Episode")).length
      , landscape := ((selectedRows fsS "others").filter
          (fun r => stripVt r == "Full Episode")).length
      , portrait := ((selectedRows fsS "others").filter
          (fun r => stripVt r == "Full Episode")).length
      , series := if pyLower "Full Episode" == "full episode"
          then ((selectedRows fsS "others").filter
            (fun r => stripVt r == "Full Episode")).length else 0
      , season := if pyLower "Full Episode" == "full episode"
          then ((selectedRows fsS "others").filter
            (fun r => stripVt r == "Full Episode")).length else 0 }
    ∧ (∀ f, maxByMtime (fsS.filter (fun x => globMatch "others" x.1)) = some f →
        f ∈ fsS ∧ globMatch "others" f.1 = true ∧
        (∀ x ∈ fsS, globMatch "others" x.1 = true → x.2.1 ≤ f.2.1) ∧
        selectedRows fsS "others" = f.2.2) :=
  c9_summary_tally_per_record fsS "others" "Full Episode" (Or.inl rfl)

end TPG
